import Mathlib

/-!
Verification of the dialogue-state engine of the chatbot-ai repository.

The Python modules `nlu/followup.py`, `nlu/normalizer.py`, `nlu/validator.py`,
`domain/driving/policy.py`, `domain/kiosk/policy.py` and
`session/session_manager.py` are shallowly embedded below.  Python dictionaries
are modelled as insertion-ordered association lists over a JSON-like value
type; Python floats are modelled as rationals; fallible collaborator calls
(the catalog repository) return `Except`; the external LLM oracles are inputs
of the embedded functions, reflecting that the engine only consumes their
results.
-/

namespace Chatbot

/-- JSON-like values: the dynamic values stored in the Python dicts of the
source (`None`, booleans, ints, floats, strings, lists, dicts). -/
inductive Val where
  | null : Val
  | bool (b : Bool) : Val
  | int (n : Int) : Val
  | rat (q : Rat) : Val
  | str (s : String) : Val
  | list (xs : List Val) : Val
  | dict (d : List (String × Val)) : Val
deriving Inhabited

mutual

/-- Boolean equality on `Val` (structural). -/
def Val.beq : Val → Val → Bool
  | .null, .null => true
  | .bool a, .bool b => a == b
  | .int a, .int b => a == b
  | .rat a, .rat b => a == b
  | .str a, .str b => a == b
  | .list xs, .list ys => Val.beqList xs ys
  | .dict xs, .dict ys => Val.beqDict xs ys
  | _, _ => false

def Val.beqList : List Val → List Val → Bool
  | [], [] => true
  | x :: xs, y :: ys => Val.beq x y && Val.beqList xs ys
  | _, _ => false

def Val.beqDict : List (String × Val) → List (String × Val) → Bool
  | [], [] => true
  | (k, x) :: xs, (l, y) :: ys => k == l && Val.beq x y && Val.beqDict xs ys
  | _, _ => false

end

mutual

theorem Val.beq_iff : (a b : Val) → (Val.beq a b = true ↔ a = b)
  | .null, .null => by simp [Val.beq]
  | .bool a, .bool b => by simp [Val.beq]
  | .int a, .int b => by simp [Val.beq]
  | .rat a, .rat b => by simp [Val.beq]
  | .str a, .str b => by simp [Val.beq]
  | .list xs, .list ys => by simp [Val.beq, Val.beqList_iff xs ys]
  | .dict xs, .dict ys => by simp [Val.beq, Val.beqDict_iff xs ys]
  | .null, .bool _ | .null, .int _ | .null, .rat _ | .null, .str _
  | .null, .list _ | .null, .dict _ => by simp [Val.beq]
  | .bool _, .null | .bool _, .int _ | .bool _, .rat _ | .bool _, .str _
  | .bool _, .list _ | .bool _, .dict _ => by simp [Val.beq]
  | .int _, .null | .int _, .bool _ | .int _, .rat _ | .int _, .str _
  | .int _, .list _ | .int _, .dict _ => by simp [Val.beq]
  | .rat _, .null | .rat _, .bool _ | .rat _, .int _ | .rat _, .str _
  | .rat _, .list _ | .rat _, .dict _ => by simp [Val.beq]
  | .str _, .null | .str _, .bool _ | .str _, .int _ | .str _, .rat _
  | .str _, .list _ | .str _, .dict _ => by simp [Val.beq]
  | .list _, .null | .list _, .bool _ | .list _, .int _ | .list _, .rat _
  | .list _, .str _ | .list _, .dict _ => by simp [Val.beq]
  | .dict _, .null | .dict _, .bool _ | .dict _, .int _ | .dict _, .rat _
  | .dict _, .str _ | .dict _, .list _ => by simp [Val.beq]

theorem Val.beqList_iff : (xs ys : List Val) → (Val.beqList xs ys = true ↔ xs = ys)
  | [], [] => by simp [Val.beqList]
  | x :: xs, y :: ys => by
      simp [Val.beqList, Val.beq_iff x y, Val.beqList_iff xs ys]
  | [], _ :: _ => by simp [Val.beqList]
  | _ :: _, [] => by simp [Val.beqList]

theorem Val.beqDict_iff : (xs ys : List (String × Val)) → (Val.beqDict xs ys = true ↔ xs = ys)
  | [], [] => by simp [Val.beqDict]
  | (k, x) :: xs, (l, y) :: ys => by
      simp [Val.beqDict, Val.beq_iff x y, Val.beqDict_iff xs ys, and_assoc]
  | [], _ :: _ => by simp [Val.beqDict]
  | _ :: _, [] => by simp [Val.beqDict]

end

instance : DecidableEq Val :=
  fun a b => decidable_of_iff _ (Val.beq_iff a b)

/-- A Python dict with string keys: insertion-ordered association list.
All operations below preserve the Python-dict property that a key occurs at
most once when it held of the input. -/
abbrev Dict := List (String × Val)

/-- `d.get(k)` (first binding wins; genuine dicts have unique keys). -/
def dget (d : Dict) (k : String) : Option Val :=
  match d with
  | [] => none
  | (k', v) :: rest => if k' = k then some v else dget rest k

/-- `d.get(k, default)`. -/
def dgetD (d : Dict) (k : String) (dflt : Val) : Val :=
  (dget d k).getD dflt

/-- `k in d`. -/
def dmem (d : Dict) (k : String) : Bool :=
  (dget d k).isSome

/-- `d[k] = v`: replace the binding in place if the key exists, else append
(Python insertion-order semantics). -/
def dset (d : Dict) (k : String) (v : Val) : Dict :=
  match d with
  | [] => [(k, v)]
  | (k', v') :: rest => if k' = k then (k', v) :: rest else (k', v') :: dset rest k v

/-- `d.pop(k, None)`: remove the binding for `k` if present. -/
def dpop (d : Dict) (k : String) : Dict :=
  match d with
  | [] => []
  | (k', v') :: rest => if k' = k then rest else (k', v') :: dpop rest k

/-- `a.update(b)`: fold the bindings of `b` into `a`, later entries winning. -/
def dUpdate (a b : Dict) : Dict :=
  b.foldl (fun acc kv => dset acc kv.1 kv.2) a

/-- Python truthiness of a value (`bool(v)`). -/
def pyTruthy : Val → Bool
  | .null => false
  | .bool b => b
  | .int n => n ≠ 0
  | .rat q => q ≠ 0
  | .str s => s ≠ ""
  | .list xs => ¬ xs.isEmpty
  | .dict d => ¬ d.isEmpty

/-- `a or b` on values. -/
def pyOr (a b : Val) : Val :=
  if pyTruthy a then a else b

/-- `str(v)` restricted to the shapes the engine actually stringifies
(strings, ints, bools, `None`).  The source never reaches `str` of a float,
list or dict on the embedded paths; those map to `""`. -/
def pyStr : Val → String
  | .str s => s
  | .int n => toString n
  | .bool b => if b then "True" else "False"
  | _ => ""

/-- `_safe_str` of `followup.py` / `normalizer.py` / `kiosk/policy.py`:
the value itself when a string, `""` for `None`, else `str(x)`. -/
def safeStr : Val → String
  | .str s => s
  | .null => ""
  | v => pyStr v

/-- `str(x or "")` as used by the validator on slot values. -/
def pyStrOr (v : Val) : String :=
  if pyTruthy v then pyStr v else ""

/-- `int(v)` for the value shapes that can carry a turn counter or a
temperature (ints, floats truncated toward zero, bools, numeric strings).
Python raises on other shapes; those are unreachable in the engine and
default to `none`. -/
def pyToInt : Val → Option Int
  | .int n => some n
  | .rat q => some (Int.tdiv q.num q.den)
  | .bool b => some (if b then 1 else 0)
  | .str s => s.toInt?
  | _ => none

/-! ### String utilities (Python `str` methods and the regex shapes the
engine uses, over `List Char`) -/

/-- Whitespace characters (`\s` on the inputs the engine sees). -/
def isWs (c : Char) : Bool :=
  c = ' ' ∨ c = '\t' ∨ c = '\n' ∨ c = '\r'

/-- Word characters for `\b` (Python `\w`): ASCII alphanumerics, underscore,
and Hangul (syllables, jamo, compatibility jamo) — the repertoire the
source's patterns are written for. -/
def isWordChar (c : Char) : Bool :=
  c.isAlphanum ∨ c = '_' ∨
  (0xAC00 ≤ c.toNat ∧ c.toNat ≤ 0xD7A3) ∨
  (0x1100 ≤ c.toNat ∧ c.toNat ≤ 0x11FF) ∨
  (0x3130 ≤ c.toNat ∧ c.toNat ≤ 0x318F)

/-- `s.strip()` on a char list. -/
def stripChars (s : List Char) : List Char :=
  ((s.dropWhile isWs).reverse.dropWhile isWs).reverse

/-- `s.strip()`. -/
def pyStrip (s : String) : String :=
  ⟨stripChars s.toList⟩

/-- `re.sub(r"\s+", "", s)`: delete all whitespace. -/
def removeWs (s : List Char) : List Char :=
  s.filter (fun c => ¬ isWs c)

/-- `s.lower()` (ASCII; the engine lowercases Korean/ASCII text only). -/
def lowerChars (s : List Char) : List Char :=
  s.map Char.toLower

/-- `needle in hay` (substring test). -/
def isSubstr (needle : List Char) : List Char → Bool
  | [] => needle.isEmpty
  | c :: rest => needle.isPrefixOf (c :: rest) ∨ isSubstr needle rest

/-- `any(t in m for t in triggers)` over strings. -/
def anySubstr (triggers : List String) (m : List Char) : Bool :=
  triggers.any (fun t => isSubstr t.toList m)

/-- `\b` holds between positions `before` (chars so far, reversed) and
`after`: a word char on exactly one side. -/
def wordBoundary (before after : List Char) : Bool :=
  let l := match before with | [] => false | c :: _ => isWordChar c
  let r := match after with | [] => false | c :: _ => isWordChar c
  l ≠ r

/-- A branch of one of the source's alternation patterns: a sequence of
literal runs and `\s*` gaps.  Optional groups such as `(거|걸)?` are expanded
into multiple branches in the regex backtracking order (greedy first). -/
inductive PatTok where
  | lit (s : List Char) : PatTok
  | ws : PatTok
deriving DecidableEq

/-- Match a branch at the head of `s` (case-insensitive literal compare,
`\s*` consuming a maximal whitespace run), returning the rest on success. -/
def matchToks : List PatTok → List Char → Option (List Char)
  | [], s => some s
  | .lit w :: toks, s =>
      if lowerChars w |>.isPrefixOf (lowerChars s) then
        matchToks toks (s.drop w.length)
      else
        none
  | .ws :: toks, s => matchToks toks (s.dropWhile isWs)

/-- One of the source's noise patterns: leading `\b` flag, alternation
branches in order, and the trailing `\b` all of them carry. -/
structure NoisePat where
  leadWB : Bool
  branches : List (List PatTok)

/-- Try the branches of `p` at the current position (prefix of `rest`;
`seenRev` holds the consumed prefix reversed, for `\b`).  Returns the length
matched.  Mirrors Python backtracking: first branch that matches its literals
and the boundary requirements wins. -/
def matchPatAt (p : NoisePat) (seenRev rest : List Char) : Option Nat :=
  if p.leadWB ∧ ¬ wordBoundary seenRev rest then none
  else
    p.branches.firstM (fun br =>
      match matchToks br rest with
      | some remaining =>
          let len := rest.length - remaining.length
          if wordBoundary ((rest.take len).reverse ++ seenRev) remaining then
            some len
          else
            none
      | none => none)

/-- `re.sub(pat, " ", s)` for a noise pattern: scan left to right, replace
each non-overlapping match by one space.  (All branches consume at least one
char on the strings the engine feeds in; a zero-length match falls through to
plain copying so the scan always terminates.) -/
def subPat (p : NoisePat) : List Char → List Char := go []
where
  go (seenRev : List Char) : List Char → List Char
    | [] => []
    | c :: rest =>
        match matchPatAt p seenRev (c :: rest) with
        | some (n + 1) => ' ' :: go ((((c :: rest).take (n + 1)).reverse) ++ seenRev) ((c :: rest).drop (n + 1))
        | _ => c :: go (c :: seenRev) rest
  termination_by s => s.length
  decreasing_by
    · simp
      omega
    · simp

/-! ### `nlu/followup.py` — heuristic follow-up classifier

Scores are accumulated in hundredths (the source uses the float literals
0.65, 0.20, 0.25, 0.20, 0.10 and threshold 0.55; on every reachable sum the
float comparison agrees with exact arithmetic). -/

/-- Alternatives of `_FOLLOWUP_PAT` (`^(...)\b`), the optional group of
`전(에)?` expanded. -/
def FOLLOWUP_PREFIXES : List String :=
  ["그럼", "그러면", "그럼요", "그러니까", "그래서", "근데", "근데요", "아니", "아니요",
   "그리고", "또", "그거", "그거요", "그것", "이거", "이건", "저거", "저건", "방금",
   "아까", "전에", "전", "이어서", "계속", "다시"]

/-- Literals of `_REFERENTIAL_PAT` (plain alternation, no anchors). -/
def REFERENTIAL_WORDS : List String :=
  ["그거", "그것", "이거", "이것", "저거", "저것", "그런", "이런", "저런", "거기", "여기", "저기"]

/-- `_FOLLOWUP_PAT.search(msg)`: some alternative is a prefix of `msg`
followed by a word boundary. -/
def followupPrefixHit (m : List Char) : Bool :=
  FOLLOWUP_PREFIXES.any (fun w =>
    let wl := w.toList
    wl.isPrefixOf m ∧ wordBoundary ((m.take wl.length).reverse) (m.drop wl.length))

/-- `_REFERENTIAL_PAT.search(msg)`. -/
def referentialHit (m : List Char) : Bool :=
  anySubstr REFERENTIAL_WORDS m

/-- `"?" in msg or msg.endswith("요") or msg.endswith("야") or msg.endswith("냐")`. -/
def questionLike (m : List Char) : Bool :=
  isSubstr ['?'] m ∨ m.getLast? = some '요' ∨ m.getLast? = some '야' ∨ m.getLast? = some '냐'

/-- `_last_bot_action(state)`. -/
def lastBotActionOf (st : Dict) : String :=
  safeStr (dgetD st "last_bot_action" .null)

/-- `heuristic_followup_score(user_message, state)` in hundredths:
sequential accumulation then clamp at 1.0, as in the source. -/
def heuristicFollowupScore (userMessage : String) (st : Dict) : Nat :=
  let m := stripChars userMessage.toList
  let lastAction := lastBotActionOf st
  let score : Nat := 0
  let score := if lastAction = "ask_slot" ∨ lastAction = "ask_option_group" then score + 65 else score
  let score := if m.length ≤ 10 then score + 20 else score
  let score := if followupPrefixHit m then score + 25 else score
  let score := if referentialHit m then score + 20 else score
  let score := if questionLike m ∧ followupPrefixHit m then score + 10 else score
  if score > 100 then 100 else score

/-- `is_followup(...)` when the optional LLM oracle is unavailable
(`llm_is_followup` returns `None`): heuristic score against the default
threshold 0.55. -/
def isFollowup (userMessage : String) (st : Dict) : Bool :=
  heuristicFollowupScore userMessage st ≥ 55

/-! ### `nlu/normalizer.py` — helpers -/

/-- `_merge_dict(a, b)`: `b` wins, but `None` values of `b` are skipped. -/
def mergeDict (a b : Dict) : Dict :=
  b.foldl (fun out kv => if kv.2 = Val.null then out else dset out kv.1 kv.2) a

/-- `_slot_value(slot)` (normalizer form: unwrap a `value` wrapper). -/
def slotValue (slot : Val) : Val :=
  match slot with
  | .dict d => if dmem d "value" then dgetD d "value" .null else slot
  | _ => slot

/-- `_slot_conf(slot)`: the `confidence` field when numeric, else 0.
(Python `bool` is an `int`, hence the `bool` case.) -/
def slotConf (slot : Val) : Rat :=
  match slot with
  | .dict d =>
      if dmem d "confidence" then
        match dgetD d "confidence" .null with
        | .int n => (n : Rat)
        | .rat q => q
        | .bool b => if b then 1 else 0
        | _ => 0
      else 0
  | _ => 0

/-- `_has_nonempty(v)`. -/
def hasNonempty : Val → Bool
  | .null => false
  | .str s => pyStrip s ≠ ""
  | .list xs => ¬ xs.isEmpty
  | .dict d => ¬ d.isEmpty
  | _ => true

/-- `_looks_like_new_order(msg)`. -/
def NEW_ORDER_TRIGGERS : List String :=
  ["주세요", "주문", "시킬게", "시켜", "할게요", "할게", "다시", "추가", "하나",
   "두", "세", "한잔", "한 잔", "두잔", "두 잔", "세잔", "세 잔"]

def looksLikeNewOrder (msg : String) : Bool :=
  let m := stripChars msg.toList
  ¬ m.isEmpty ∧ anySubstr NEW_ORDER_TRIGGERS m

/-- `EDU_PREFERENCE_KEYS`. -/
def EDU_PREFERENCE_KEYS : List String :=
  ["level", "subject", "style", "include_examples", "example_type", "language",
   "length", "tone", "target_improvements"]

/-- `EDU_CONTEXT_KEYS`. -/
def EDU_CONTEXT_KEYS : List String :=
  ["topic", "content", "student_answer", "question"]

/-- Punctuation class removed by `_normalize_korean_text`. -/
def KO_PUNCT : List Char :=
  ['"', '\'', '“', '”', '‘', '’', '.', ',', '!', '?', '(', ')', '[', ']',
   Char.ofNat 123, Char.ofNat 125, '<', '>', ':', ';', '~', Char.ofNat 96,
   '/', '\\', '|', '@', '#', '$', '%', '^', '&', '*', '_', '+', '=', '-']

/-- `_normalize_korean_text(s)`: strip, delete whitespace, delete punctuation. -/
def normalizeKoreanText (s : List Char) : List Char :=
  (removeWs (stripChars s)).filter (fun c => ¬ KO_PUNCT.contains c)

/-- Connectives replaced by a space in `_extract_topic_keywords`
(regex alternation order preserved). -/
def TOPIC_CONNECTIVES : List String :=
  ["의", "과", "와", "및", "또는", "그리고"]

/-- `re.sub(r"(의|과|와|및|또는|그리고)", " ", t)`: left-to-right scan, first
matching alternative replaced by one space. -/
def replaceConnectives : List Char → List Char
  | [] => []
  | c :: rest =>
      match TOPIC_CONNECTIVES.firstM (fun w =>
          if w.toList.isPrefixOf (c :: rest) then some w.toList.length else none) with
      | some (n + 1) => ' ' :: replaceConnectives ((c :: rest).drop (n + 1))
      | _ => c :: replaceConnectives rest
  termination_by s => s.length
  decreasing_by
    · simp
      omega
    · simp

/-- `re.split(r"\s+", t)` keeping nonempty parts. -/
def splitWs (s : List Char) : List (List Char) :=
  (List.splitOnP isWs s).filter (fun p => ¬ p.isEmpty)

/-- `_TOPIC_GROUNDED_MINLEN`. -/
def TOPIC_GROUNDED_MINLEN : Nat := 2

/-- First-occurrence deduplication (Python's seen-set loop). -/
def dedupFirst : List (List Char) → List (List Char)
  | [] => []
  | x :: rest => x :: dedupFirst (rest.filter (fun y => y ≠ x))
  termination_by xs => xs.length
  decreasing_by
    simp
    exact Nat.lt_succ_of_le (List.length_filter_le _ _)

/-- `_extract_topic_keywords(topic)`. -/
def extractTopicKeywords (topic : String) : List (List Char) :=
  let t := stripChars topic.toList
  if t.isEmpty then []
  else
    let t := replaceConnectives t
    let parts := splitWs t
    let kws := (parts.map stripChars).filter (fun p => p.length ≥ TOPIC_GROUNDED_MINLEN)
    dedupFirst kws

/-- `_should_keep_new_topic_when_not_followup(user_message, topic_new_val)`. -/
def shouldKeepNewTopicWhenNotFollowup (userMessage : String) (topicNewVal : Val) : Bool :=
  let msg := stripChars userMessage.toList
  if msg.isEmpty then false
  else
    match topicNewVal with
    | .str t0 =>
        let t := stripChars t0.toList
        if t.length < TOPIC_GROUNDED_MINLEN then false
        else if isSubstr t msg then true
        else
          let msgNorm := normalizeKoreanText msg
          let tNorm := normalizeKoreanText t
          if ¬ tNorm.isEmpty ∧ isSubstr tNorm msgNorm then true
          else
            (extractTopicKeywords ⟨t⟩).any (fun kw =>
              let kwNorm := normalizeKoreanText kw
              ¬ kwNorm.isEmpty ∧ isSubstr kwNorm msgNorm)
    | _ => false

/-- `_safe_dict(x)`. -/
def safeDict : Val → Dict
  | .dict d => d
  | _ => []

/-- Group/value pair extraction used by `_option_groups_to_dict` on the list
form (`[{"group": "size", "value": "S"}, ...]`). -/
def ogPairsFromList (xs : List Val) : Dict :=
  xs.foldl (fun out it =>
    match it with
    | .dict d =>
        match dget d "group" with
        | some (.str g) => dset out (pyStrip g) (dgetD d "value" .null)
        | _ => out
    | _ => out) []

/-- `_option_groups_to_dict(v)` of `normalizer.py`. -/
def optionGroupsToDict : Val → Dict
  | .null => []
  | .dict d =>
      if dmem d "value" then
        match dgetD d "value" .null with
        | .dict inner => inner
        | .list xs => ogPairsFromList xs
        | _ => []
      else d
  | .list xs => ogPairsFromList xs
  | _ => []

/-- `_wrap_option_groups(og, conf=0.9)`. -/
def wrapOptionGroups (og : Dict) : Val :=
  .dict [("value", .dict og), ("confidence", .rat (0.9 : Rat))]

/-- `_choice_match(value, choices)`: case- and whitespace-insensitive match
of `value` against the offered choices; returns the matching choice. -/
def choiceMatch (value : Val) (choices : Val) : Option String :=
  match choices with
  | .list cs =>
      if value = Val.null then none
      else
        let v := pyStrip (pyStr value)
        if v = "" then none
        else
          let vNorm := lowerChars (removeWs v.toList)
          cs.firstM (fun c =>
            match c with
            | .str s => if lowerChars (removeWs s.toList) = vNorm then some s else none
            | _ => none)
  | _ => none

/-- Characters kept by `re.sub(r"[^a-z0-9가-힣]", "", s)`. -/
def keepAlnumKo (s : List Char) : List Char :=
  s.filter (fun c =>
    (97 ≤ c.toNat ∧ c.toNat ≤ 122) ∨ (48 ≤ c.toNat ∧ c.toNat ≤ 57) ∨
    (0xAC00 ≤ c.toNat ∧ c.toNat ≤ 0xD7A3))

/-- `_norm_temp(s)` (inner function of `apply_session_rules`). -/
def normTempMsg (s : String) : Option String :=
  let s2 := lowerChars (stripChars s.toList)
  if s2.isEmpty then none
  else
    let s2n := keepAlnumKo s2
    if anySubstr ["아이스", "ice", "iced", "차가", "시원", "콜드", "cold"] s2n then some "ice"
    else if anySubstr ["뜨거", "따뜻", "따듯", "핫", "hot"] s2n then some "hot"
    else none

/-- `_norm_size(s)` (inner function of `apply_session_rules`). -/
def normSizeMsg (s : String) : Option String :=
  let s2 := lowerChars (stripChars s.toList)
  if s2.isEmpty then none
  else
    let s2n := keepAlnumKo s2
    if s2n.head? = some 's' then some "S"
    else if s2n.head? = some 'm' then some "M"
    else if s2n.head? = some 'l' then some "L"
    else if isSubstr "small".toList s2n then some "S"
    else if isSubstr "medium".toList s2n then some "M"
    else if isSubstr "large".toList s2n then some "L"
    else if anySubstr ["제일작", "가장작", "작은", "스몰"] s2n then some "S"
    else if anySubstr ["중간", "보통", "미디움"] s2n then some "M"
    else if anySubstr ["제일큰", "가장큰", "큰", "라지"] s2n then some "L"
    else if s2n = "tall".toList then some "Tall"
    else if s2n = "grande".toList then some "Grande"
    else if s2n = "venti".toList then some "Venti"
    else none

/-- The heuristic coercion of the pending block: the candidate for the
pending group plus the explicitly-mentioned other option (`extra_updates`). -/
def pendingCoerce (pendingGroup : String) (msg : String) : Option String × List (String × Val) :=
  let tempCandidate := normTempMsg msg
  let sizeCandidate := normSizeMsg msg
  if pendingGroup = "temperature" then
    (tempCandidate, match sizeCandidate with | some s => [("size", Val.str s)] | none => [])
  else if pendingGroup = "size" then
    (sizeCandidate, match tempCandidate with | some t => [("temperature", Val.str t)] | none => [])
  else (none, [])

/-- The LLM `option_groups` fallback of the pending block (runs when the
heuristic produced neither a pending value nor extra updates): choice-matched
value if it matches, else the raw trimmed value when non-empty. -/
def llmCoerce (slotsIn : Dict) (pendingGroup : String) (pendingChoices : Val) : Option String :=
  let ogFromLlm := optionGroupsToDict (dgetD slotsIn "option_groups" .null)
  if pendingGroup ≠ "" ∧ dmem ogFromLlm pendingGroup then
    let cand := dgetD ogFromLlm pendingGroup .null
    match choiceMatch cand pendingChoices with
    | some m => some m
    | none =>
        if cand ≠ Val.null ∧ pyStrip (pyStr cand) ≠ "" then some (pyStrip (pyStr cand))
        else none
  else none

/-- Direct match of the raw utterance against the offered choices
(case/whitespace-insensitive), tried when coercion is still empty. -/
def directChoiceCoerce (msg : String) (pendingChoices : Val) : Option String :=
  match pendingChoices with
  | .list cs =>
      let msgL := lowerChars (removeWs msg.toList)
      cs.firstM (fun c =>
        match c with
        | .str s => if lowerChars (removeWs s.toList) = msgL then some s else none
        | _ => none)
  | _ => none

/-- The pending block of `apply_session_rules` (kiosk follow-up on a pending
option group): computes the coerced value, rewrites `slots_in`, and decides
whether the pending follow-up is kept or abandoned.  Returns
`(is_pending_followup, slots_in)` after the block. -/
def pendingSlotRework (prevSlots slotsIn : Dict) (pendingGroup : String)
    (pendingChoices : Val) (msg : String) : Bool × Dict :=
  let ce := pendingCoerce pendingGroup msg
  let coerced := ce.1
  let extra := ce.2
  -- keep the LLM option_groups candidate when the heuristic failed
  let coerced :=
    if coerced = none ∧ extra = [] then llmCoerce slotsIn pendingGroup pendingChoices
    else coerced
  -- direct choice match of the utterance
  let coerced := if coerced = none then directChoiceCoerce msg pendingChoices else coerced
  -- drop an empty LLM option_groups so it cannot overwrite the carried one
  let slotsIn :=
    if coerced = none ∧ extra = [] ∧ dmem slotsIn "option_groups" then
      dpop slotsIn "option_groups"
    else slotsIn
  -- a new-order-looking utterance abandons the pending follow-up
  let isPendingFollowup :=
    ¬ (coerced = none ∧ extra = [] ∧ looksLikeNewOrder msg)
  let slotsIn :=
    if coerced ≠ none ∨ extra ≠ [] then
      let s := dpop slotsIn "item_name"
      let prevOg := optionGroupsToDict (dgetD prevSlots "option_groups" .null)
      let curOg := optionGroupsToDict (dgetD s "option_groups" .null)
      let ogDict := dUpdate prevOg curOg
      let ogDict :=
        match coerced with
        | some c => if pendingGroup ≠ "" then dset ogDict pendingGroup (.str c) else ogDict
        | none => ogDict
      let ogDict := extra.foldl (fun acc kv => dset acc kv.1 kv.2) ogDict
      let s := dset s "option_groups" (wrapOptionGroups ogDict)
      if ¬ dmem s "quantity" ∧ dmem prevSlots "quantity" then
        dset s "quantity" (dgetD prevSlots "quantity" .null)
      else s
    else slotsIn
  (isPendingFollowup, slotsIn)

/-- The education branch of `apply_session_rules`: the merged slot map. -/
def eduMergeSlots (st prevSlots slotsIn : Dict) (userMessage : String) : Dict :=
  let follow := isFollowup userMessage st
  let prevPref := prevSlots.filter (fun kv => EDU_PREFERENCE_KEYS.contains kv.1)
  let inPref := slotsIn.filter (fun kv => EDU_PREFERENCE_KEYS.contains kv.1)
  let merged := mergeDict prevPref inPref
  let isSpecial := fun (k : String) => EDU_PREFERENCE_KEYS.contains k ∨ EDU_CONTEXT_KEYS.contains k
  let prevOther := prevSlots.filter (fun kv => ¬ isSpecial kv.1)
  let inOther := slotsIn.filter (fun kv => ¬ isSpecial kv.1)
  let merged := mergeDict (mergeDict merged prevOther) inOther
  let topicSlotNew := dgetD slotsIn "topic" .null
  let topicNewVal := slotValue topicSlotNew
  let topicNewConf := slotConf topicSlotNew
  let topicSlotPrev := dgetD prevSlots "topic" .null
  let topicPrevVal := slotValue topicSlotPrev
  if ¬ follow then
    let keepNewTopic :=
      dmem slotsIn "topic" ∧ hasNonempty topicNewVal ∧
      shouldKeepNewTopicWhenNotFollowup userMessage topicNewVal
    let merged := EDU_CONTEXT_KEYS.foldl dpop merged
    if keepNewTopic then dset merged "topic" topicSlotNew else merged
  else
    if ¬ hasNonempty topicNewVal ∨ topicNewConf < (0.35 : Rat) then
      if hasNonempty topicPrevVal then dset merged "topic" topicSlotPrev
      else dpop merged "topic"
    else dset merged "topic" topicSlotNew

/-- `apply_session_rules(state, nlu, user_message)` of `normalizer.py`. -/
def applySessionRules (state nlu : Val) (userMessage : String) : Dict :=
  let st := safeDict state
  let n := safeDict nlu
  let domain := pyStrip (safeStr (pyOr (dgetD n "domain" .null) (dgetD st "current_domain" .null)))
  let intent := pyStrip (safeStr (pyOr (dgetD n "intent" .null) (dgetD st "active_intent" .null)))
  let slotsIn := safeDict (dgetD n "slots" .null)
  let prevSlots := safeDict (dgetD st "slots" .null)
  if domain ≠ "education" then
    -- kiosk and all other non-education domains
    let pendingGroup := pyStrip (safeStr (dgetD st "pending_option_group" .null))
    let pendingChoices := dgetD st "pending_option_group_choices" .null
    let lastAction := lastBotActionOf st
    let isPendingFollowup := pendingGroup ≠ "" ∧ lastAction = "ask_option_group"
    if isPendingFollowup then
      let active := pyStrip (safeStr (dgetD st "active_intent" .null))
      let intent := if active ≠ "" then active else intent
      let msg := pyStrip userMessage
      let pr := pendingSlotRework prevSlots slotsIn pendingGroup pendingChoices msg
      let merged := if pr.1 then mergeDict prevSlots pr.2 else pr.2
      dset (dset (dset n "domain" (.str domain)) "intent" (.str intent)) "slots" (.dict merged)
    else
      let merged := slotsIn
      dset (dset (dset n "domain" (.str domain)) "intent" (.str intent)) "slots" (.dict merged)
  else
    -- education
    let merged := eduMergeSlots st prevSlots slotsIn userMessage
    dset (dset (dset n "domain" (.str domain)) "intent" (.str intent)) "slots" (.dict merged)

/-! ### `domain/driving/policy.py` -/

/-- `_norm(val)`: lower then strip, `""` for non-strings. -/
def normLS : Val → String
  | .str s => ⟨stripChars (lowerChars s.toList)⟩
  | _ => ""

/-- `_get_slot_value(slots, key)` / validator's `_slot_value`: unwrap a dict
slot to its `value` field (absent key or non-dict `value` handled as the
source does). -/
def slotValueOf (slots : Dict) (k : String) : Val :=
  match dget slots k with
  | some (.dict d) => dgetD d "value" .null
  | some v => v
  | none => .null

/-- `check_action_validity(intent, slots, current_status, supported_features)`. -/
def checkActionValidity (intent : String) (slots : Dict) (currentStatus : Dict)
    (supportedFeatures : Option (List String)) : Option String :=
  if currentStatus.isEmpty then none
  else
    let useSupportCheck := supportedFeatures.isSome
    let feats := supportedFeatures.getD []
    if intent = "control_hardware" then
      let part := normLS (slotValueOf slots "target_part")
      let action := normLS (slotValueOf slots "action")
      let loc := normLS (slotValueOf slots "location_detail")
      let featureName :=
        if part = "seat_heater" then
          if loc = "rear" ∨ loc = "rear_left" ∨ loc = "rear_right" then "seat_heater_rear"
          else "seat_heater_front"
        else if part = "seat_ventilation" then
          if loc = "rear" ∨ loc = "rear_left" ∨ loc = "rear_right" then "seat_ventilation_rear"
          else "seat_ventilation_front"
        else if part = "window" then "window"
        else if part = "sunroof" then "sunroof"
        else if part = "steering_wheel" then "steering_wheel_heater"
        else part
      let basicParts := ["door_lock", "light", "wiper", "mirror", "trunk", "frunk"]
      if useSupportCheck ∧ ¬ basicParts.contains part ∧ ¬ feats.contains featureName ∧
          part ≠ "window" then
        some "feature_not_supported"
      else
        let targetKeys :=
          if part = "window" then
            let allWindows := ["window_driver", "window_passenger", "window_rear_left", "window_rear_right"]
            if loc = "driver" ∨ loc = "passenger" ∨ loc = "rear_left" ∨ loc = "rear_right" then
              ["window_" ++ loc]
            else allWindows.filter (fun k => dmem currentStatus k)
          else if part = "seat_heater" then
            if loc = "driver" ∨ loc = "passenger" then ["seat_heater_" ++ loc]
            else if loc = "rear" then ["seat_heater_rear_left", "seat_heater_rear_right"]
            else ["seat_heater_driver"]
          else if part = "seat_ventilation" then
            if loc = "driver" ∨ loc = "passenger" then ["seat_ventilation_" ++ loc] else []
          else if part = "sunroof" then ["sunroof"]
          else if part = "steering_wheel" then ["steering_wheel_heat"]
          else if part = "door_lock" then ["door_lock"]
          else []
        if ¬ targetKeys.isEmpty then
          let vals := targetKeys.filterMap (fun k => dget currentStatus k)
          if vals.isEmpty then none
          else if action = "close" ∧ vals.all (· = .str "closed") then some "already_closed"
          else if action = "open" ∧ vals.all (· = .str "open") then some "already_open"
          else if action = "on" ∧ vals.all (· = .str "on") then some "already_on"
          else if action = "off" ∧ vals.all (· = .str "off") then some "already_off"
          else none
        else none
    else if intent = "control_hvac" then
      let action := normLS (slotValueOf slots "action")
      let seatLoc := normLS (slotValueOf slots "seat_location")
      if useSupportCheck ∧ seatLoc = "rear" ∧ ¬ feats.contains "hvac_rear" then
        some "feature_not_supported"
      else if useSupportCheck ∧ seatLoc = "passenger" ∧ ¬ feats.contains "hvac_passenger" then
        some "feature_not_supported"
      else if useSupportCheck ∧ (seatLoc = "" ∨ seatLoc = "driver" ∨ seatLoc = "all") ∧
          ¬ feats.any (fun f => isSubstr "hvac".toList f.toList) then
        some "feature_not_supported"
      else if action = "off" ∧ dget currentStatus "hvac_power" = some (.str "off") then
        some "hvac_already_off"
      else none
    else none

/-- `build_vehicle_command(intent, slots)`: `{"type": ..., "params": {...}}`. -/
def buildVehicleCommand (intent : String) (slots : Dict) : Dict :=
  if intent = "control_hvac" then
    let action := let a := normLS (slotValueOf slots "action"); if a = "" then "on" else a
    let mode := normLS (slotValueOf slots "hvac_mode")
    let tempVal := slotValueOf slots "target_temp"
    let finalTemp :=
      if tempVal = Val.null then
        if mode = "heat" then Val.int 28
        else if mode = "cool" then Val.int 18
        else if mode = "auto" ∨ action = "on" then Val.int 22
        else Val.null
      else tempVal
    let finalTemp :=
      if finalTemp ≠ Val.null then
        match pyToInt finalTemp with
        | some n => Val.int (if n < 16 then 16 else if n > 32 then 32 else n)
        | none => Val.int 22
      else finalTemp
    let finalTemp := if action = "off" then Val.null else finalTemp
    [("type", Val.str "hvac_control"),
     ("params", Val.dict
       [("action", .str action), ("hvac_mode", .str mode), ("target_temp", finalTemp),
        ("seat_location", slotValueOf slots "seat_location"),
        ("fan_speed", slotValueOf slots "fan_speed")])]
  else if intent = "control_hardware" then
    [("type", Val.str "hardware_control"),
     ("params", Val.dict
       [("part", .str (normLS (slotValueOf slots "target_part"))),
        ("action", .str (normLS (slotValueOf slots "action"))),
        ("location_detail", slotValueOf slots "location_detail")])]
  else if intent = "navigate_to" then
    [("type", Val.str "navigation"),
     ("params", Val.dict
       [("destination", slotValueOf slots "destination"),
        ("waypoint", slotValueOf slots "waypoint")])]
  else if intent = "find_poi" then
    [("type", Val.str "search_poi"),
     ("params", Val.dict
       [("poi_type", slotValueOf slots "poi_type"),
        ("sort_by", slotValueOf slots "sort_by")])]
  else
    [("type", Val.str "none"), ("params", Val.dict [])]

/-! ### `nlu/validator.py` — vehicle status simulation -/

/-- `act_map` of `_update_vehicle_status_simulation`. -/
def actMap (act : String) : Option String :=
  if act = "open" then some "open"
  else if act = "close" then some "closed"
  else if act = "on" then some "on"
  else if act = "off" then some "off"
  else if act = "lock" then some "locked"
  else if act = "unlock" then some "unlocked"
  else none

/-- `_update_vehicle_status_simulation(current_status, intent, params)`. -/
def updateVehicleStatusSimulation (currentStatus : Dict) (intent : String) (params : Dict) : Dict :=
  let newStatus := currentStatus
  if intent = "control_hardware" then
    let part := pyStrOr (dgetD params "part" .null)
    let act := pyStrOr (dgetD params "action" .null)
    let detail := pyStrOr (dgetD params "location_detail" .null)
    match actMap act with
    | none => newStatus
    | some v =>
        let val := Val.str v
        if part = "sunroof" then dset newStatus "sunroof" val
        else if part = "charge_port" then dset newStatus "charge_port" val
        else if part = "trunk" then dset newStatus "trunk" val
        else if part = "frunk" then dset newStatus "frunk" val
        else if part = "door_lock" then dset newStatus "door_lock" val
        else if part = "window" then
          if detail = "all" then
            dset (dset (dset (dset newStatus "window_driver" val) "window_passenger" val)
              "window_rear_left" val) "window_rear_right" val
          else if detail = "driver" then dset newStatus "window_driver" val
          else if detail = "passenger" then dset newStatus "window_passenger" val
          else dset (dset newStatus "window_driver" val) "window_passenger" val
        else if part = "seat_heater" then
          -- heater and ventilation are mutually exclusive per front seat
          let s := newStatus
          let s :=
            if detail = "driver" ∨ detail = "front" ∨ detail = "" then
              let s := dset s "seat_heater_driver" val
              if v = "on" then dset s "seat_ventilation_driver" (.str "off") else s
            else s
          let s :=
            if detail = "passenger" ∨ detail = "front" ∨ detail = "" then
              let s := dset s "seat_heater_passenger" val
              if v = "on" then dset s "seat_ventilation_passenger" (.str "off") else s
            else s
          let s :=
            if detail = "rear" ∨ detail = "rear_left" ∨ detail = "all" then
              dset s "seat_heater_rear_left" val
            else s
          if detail = "rear" ∨ detail = "rear_right" ∨ detail = "all" then
            dset s "seat_heater_rear_right" val
          else s
        else if part = "seat_ventilation" then
          let s := newStatus
          let s :=
            if detail = "driver" ∨ detail = "front" ∨ detail = "" then
              let s := dset s "seat_ventilation_driver" val
              if v = "on" then dset s "seat_heater_driver" (.str "off") else s
            else s
          if detail = "passenger" ∨ detail = "front" ∨ detail = "" then
            let s := dset s "seat_ventilation_passenger" val
            if v = "on" then dset s "seat_heater_passenger" (.str "off") else s
          else s
        else if part = "steering_wheel" then dset newStatus "steering_wheel_heat" val
        else if part = "light" then dset newStatus "light_head" val
        else if part = "wiper" then dset newStatus "wiper_front" val
        else newStatus
  else if intent = "control_hvac" then
    let act := pyStrOr (dgetD params "action" .null)
    let mode := pyStrOr (dgetD params "hvac_mode" .null)
    let temp := dgetD params "target_temp" .null
    let s := newStatus
    let s :=
      if act = "on" then dset s "hvac_power" (.str "on")
      else if act = "off" then dset s "hvac_power" (.str "off")
      else s
    let s := if mode ≠ "" then dset s "hvac_mode" (.str mode) else s
    if pyTruthy temp then dset s "target_temp" temp else s
  else newStatus

/-! ### `nlu/validator.py` — kiosk helpers -/

/-- `_normalize_option_groups(option_groups)` (the validator's own version,
applied to the already-unwrapped slot value). -/
def normalizeOptionGroups : Val → Dict
  | .null => []
  | .dict d =>
      (match dgetD d "value" .null with
       | .dict inner => inner
       | _ => d)
  | .list xs =>
      xs.foldl (fun out it =>
        match it with
        | .dict d =>
            match dget d "group" with
            | some (.str g) => if pyStrip g ≠ "" then dset out (pyStrip g) (dgetD d "value" .null) else out
            | _ => out
        | _ => out) []
  | _ => []

/-- `_normalize_temperature_value(v)`. -/
def normalizeTemperatureValue (v : Val) : Val :=
  match v with
  | .str s =>
      let t : String := ⟨lowerChars (stripChars s.toList)⟩
      if ["iced", "ice", "아이스", "차가운", "차가움", "차가운거", "차가운걸"].contains t then .str "ice"
      else if ["hot", "뜨거운", "뜨거움", "핫", "따뜻한", "따뜻한거", "따뜻한걸", "따듯", "따듯한",
               "따듯한거", "따듯한걸"].contains t then .str "hot"
      else v
  | _ => v

/-- Literal branch. -/
def litBr (s : String) : List PatTok := [.lit s.toList]

/-- Branch with a `\s*` gap between two literals (`두\s*개` etc.). -/
def wsBr (a b : String) : List PatTok := [.lit a.toList, .ws, .lit b.toList]

/-- `_ITEM_NOISE_PATTERNS`, optional groups expanded in backtracking order
(greedy first); every pattern carries its trailing `\b`, pattern 4 also a
leading one. -/
def ITEM_NOISE_PATTERNS : List NoisePat :=
  [⟨false, [litBr "아이스", litBr "차가운거", litBr "차가운걸", litBr "차가운",
            litBr "시원한거", litBr "시원한걸", litBr "시원한", litBr "iced", litBr "ice"]⟩,
   ⟨false, [litBr "뜨거운거", litBr "뜨거운걸", litBr "뜨거운",
            litBr "따뜻한거", litBr "따뜻한걸", litBr "따뜻한",
            litBr "따듯한거", litBr "따듯한걸", litBr "따듯한",
            litBr "따듯거", litBr "따듯걸", litBr "따듯", litBr "hot", litBr "핫"]⟩,
   ⟨false, [litBr "스몰", litBr "small", litBr "미디움", litBr "medium", litBr "라지", litBr "large"]⟩,
   ⟨true, [litBr "S", litBr "M", litBr "L"]⟩,
   ⟨false, [litBr "작은거", litBr "작은걸", litBr "작은", litBr "중간거", litBr "중간걸", litBr "중간",
            litBr "큰거", litBr "큰걸", litBr "큰", litBr "보통거", litBr "보통걸", litBr "보통"]⟩,
   ⟨false, [litBr "사이즈", litBr "size"]⟩,
   ⟨false, [wsBr "두" "개", wsBr "2" "개", wsBr "두" "잔", wsBr "2" "잔"]⟩,
   ⟨false, [wsBr "한" "개", wsBr "1" "개", wsBr "한" "잔", wsBr "1" "잔"]⟩,
   ⟨false, [wsBr "세" "개", wsBr "3" "개", wsBr "세" "잔", wsBr "3" "잔"]⟩,
   ⟨false, [litBr "주세요", litBr "주문", litBr "부탁", litBr "할게요", litBr "할게",
            litBr "줘", litBr "주실래요", litBr "좀"]⟩]

def TEMP_WORDS : List String :=
  ["아이스", "차가운", "시원한", "iced", "ice", "뜨거운", "따뜻한", "따듯", "hot", "핫"]

def SIZE_WORDS : List String :=
  ["스몰", "small", "미디움", "medium", "라지", "large", "작은", "중간", "큰", "보통", "S", "M", "L"]

/-- `re.sub(rf"\b{re.escape(w)}\b", " ", s)`. -/
def subWord (w : String) (s : List Char) : List Char :=
  subPat ⟨true, [litBr w]⟩ s

theorem length_dropWhile_le {α : Type} (p : α → Bool) (l : List α) :
    (l.dropWhile p).length ≤ l.length := by
  induction l with
  | nil => simp
  | cons a l ih =>
      rw [List.dropWhile]
      split
      · exact Nat.le_trans ih (Nat.le_succ _)
      · simp

/-- `_compact_spaces(s)`. -/
def collapseWs : List Char → List Char
  | [] => []
  | c :: rest =>
      if isWs c then ' ' :: collapseWs (rest.dropWhile isWs)
      else c :: collapseWs rest
  termination_by s => s.length
  decreasing_by
    · simp
      exact Nat.lt_succ_of_le (length_dropWhile_le _ _)
    · simp

def compactSpaces (s : String) : String :=
  ⟨stripChars (collapseWs (stripChars s.toList))⟩

/-- `_recover_item_name_candidates(item_name, option_groups)`. -/
def recoverItemNameCandidates (itemName : Val) (optionGroups : Dict) : List String :=
  match itemName with
  | .str nm =>
      let raw := compactSpaces nm
      if raw = "" then []
      else
        let cands := [raw]
        let s := ITEM_NOISE_PATTERNS.foldl (fun acc p => subPat p acc) raw.toList
        let s := compactSpaces ⟨s⟩
        let cands := if s ≠ "" ∧ ¬ cands.contains s then cands ++ [s] else cands
        let s2 := raw.toList
        let s2 :=
          if dgetD optionGroups "temperature" .null ≠ Val.null then
            TEMP_WORDS.foldl (fun acc w => subWord w acc) s2
          else s2
        let s2 :=
          if dgetD optionGroups "size" .null ≠ Val.null then
            SIZE_WORDS.foldl (fun acc w => subWord w acc) s2
          else s2
        let s2 := compactSpaces ⟨s2⟩
        let cands := if s2 ≠ "" ∧ ¬ cands.contains s2 then cands ++ [s2] else cands
        cands.filter (fun x => x.length ≥ 2)
  | _ => []

/-! ### `domain/kiosk/policy.py` and the catalog collaborator -/

/-- The fields of `MenuItem` the embedded paths read. -/
structure MenuItem where
  item_id : String
  name : String
  price : Option Int
  option_groups : Option (List (String × List String))
  required_option_groups : Option (List String)
deriving DecidableEq, Inhabited

/-- The catalog collaborator: `get_item_by_name(store_id, kiosk_type, name)`.
The source does not guard these calls, so a raised error (`.error ()`)
propagates through the validator. -/
abbrev Catalog := Val → Val → Val → Except Unit (Option MenuItem)

/-- First-occurrence deduplication over strings (Python's seen-set loop):
keep the head, drop its later duplicates from the deduplicated tail. -/
def dedupFirstStr : List String → List String
  | [] => []
  | x :: rest => x :: (dedupFirstStr rest).filter (fun y => y ≠ x)

/-- `_extract_store_scope({"meta": meta})`: `(store_id, kiosk_type)` as
stripped nonempty strings or `None`. -/
def extractStoreScope (meta : Dict) : Option String × Option String :=
  let sid := pyStrip (safeStr (dgetD meta "store_id" .null))
  let kt := pyStrip (safeStr (pyOr (dgetD meta "kiosk_type" .null) (dgetD meta "kioskType" .null)))
  ((if sid = "" then none else some sid), (if kt = "" then none else some kt))

/-- `get_required_option_groups_for_add_item(req={"meta": meta}, slots, catalog)`. -/
def getRequiredOptionGroupsForAddItem (meta : Dict) (slots : Dict) (catalog : Catalog) :
    Except Unit (List String) := do
  let scope := extractStoreScope meta
  match scope.1, scope.2 with
  | some sid, some kt =>
      let itemName := pyStrip (safeStr (slotValue (dgetD slots "item_name" .null)))
      if itemName = "" then
        return []
      else
        match ← catalog (.str sid) (.str kt) (.str itemName) with
        | none => return []
        | some it =>
            let reqOgs := it.required_option_groups.getD []
            let reqOgs :=
              if reqOgs.isEmpty then
                match it.option_groups with
                | some ogs =>
                    match ogs.lookup "temperature" with
                    | some choices => if choices.length > 0 then ["temperature"] else []
                    | none => []
                | none => []
              else reqOgs
            -- strip, keep nonempty, dedupe keeping first occurrences
            return dedupFirstStr ((reqOgs.map pyStrip).filter (fun g => g ≠ ""))
  | _, _ => return []

/-- `find_missing_required_option_group(required_groups, option_groups_slot)`. -/
def findMissingRequiredOptionGroup (requiredGroups : List String) (optionGroupsSlot : Val) :
    Option String :=
  let ogDict := match slotValue optionGroupsSlot with | .dict d => d | _ => []
  requiredGroups.firstM (fun g =>
    if g = "" then none
    else
      match dget ogDict g with
      | none => some g
      | some .null => some g
      | some (.str s) => if pyStrip s = "" then some g else none
      | some _ => none)

/-! ### `nlu/validator.py` — `_merge_state` and `validate_and_build_action` -/

/-- `_merge_state(state, patch)`: copy, apply the patch, then set
`turn_index = int(new_state.get("turn_index", 0)) + 1`.  (Python `int()`
raises on non-numeric shapes; they never occur, and default to 0 here.) -/
def mergeState (state patch : Dict) : Dict :=
  let newState := dUpdate state patch
  dset newState "turn_index" (.int ((pyToInt (dgetD newState "turn_index" (.int 0))).getD 0 + 1))

/-- `_KO_PART.get(part, part)`. -/
def koPart (p : String) : String :=
  if p = "window" then "창문" else if p = "door_lock" then "문"
  else if p = "seat_heater" then "열선 시트" else if p = "seat_ventilation" then "통풍 시트"
  else if p = "trunk" then "트렁크" else if p = "frunk" then "프렁크"
  else if p = "light" then "조명" else if p = "wiper" then "와이퍼"
  else if p = "mirror" then "사이드 미러" else if p = "sunroof" then "선루프"
  else if p = "steering_wheel" then "핸들 열선" else if p = "charge_port" then "충전구"
  else p

/-- `_KO_ACTION.get(act, act)`. -/
def koAction (a : String) : String :=
  if a = "open" then "엽니다" else if a = "close" then "닫습니다"
  else if a = "on" then "켭니다" else if a = "off" then "끕니다"
  else if a = "lock" then "잠급니다" else if a = "unlock" then "엽니다"
  else if a = "up" then "올립니다" else if a = "down" then "내립니다"
  else if a = "fold" then "접습니다" else if a = "unfold" then "폅니다"
  else if a = "tilt" then "기울입니다"
  else a

/-- The external generation/safety oracle results the driving branch
consumes.  `chatReply`/`navResolve` are `none` when the underlying call
raised (the source catches those and falls back); `safetyResult` is the
parsed dict of `_check_driving_safety_with_llm`, which is total (it returns
an execute default on failure). -/
structure Oracles where
  chatReply : Option String
  safetyResult : Dict
  navResolve : Option String

/-- `TEMPLATES.get(k, "")`. -/
def templatesGet (k : String) : String :=
  if k = "result.kiosk.add_item" then "" else if k = "result.fail.generic" then "" else ""

/-- `_edu_make_llm_task(intent=..., slots=..., meta=..., state=...)`. -/
def eduMakeLlmTask (intent : String) (slots meta state : Dict) : Dict :=
  let safeState : Dict :=
    [("conversation_id", dgetD state "conversation_id" .null),
     ("turn_index", dgetD state "turn_index" .null),
     ("history_summary", dgetD state "history_summary" (.str "")),
     ("active_intent", dgetD state "active_intent" .null),
     ("slots", dgetD state "slots" (.dict [])),
     ("last_bot_action", dgetD state "last_bot_action" .null)]
  let safeMeta : Dict :=
    [("locale", dgetD meta "locale" .null),
     ("timezone", dgetD meta "timezone" .null),
     ("device_type", dgetD meta "device_type" .null),
     ("mode", dgetD meta "mode" .null),
     ("input_type", dgetD meta "input_type" .null),
     ("user_level", dgetD meta "user_level" .null),
     ("user_age_group", dgetD meta "user_age_group" .null),
     ("subject", dgetD meta "subject" .null),
     ("tone_style", dgetD meta "tone_style" .null),
     ("target_exam", dgetD meta "target_exam" .null),
     ("native_language", dgetD meta "native_language" .null)]
  let outputSchema : Val :=
    .dict [("type", .str "object"),
           ("additionalProperties", .bool false),
           ("properties", .dict
             [("text", .dict [("type", .str "string")]),
              ("ui_hints", .dict
                [("type", .str "object"),
                 ("additionalProperties", .bool false),
                 ("properties", .dict
                   [("domain", .dict [("type", .str "string")]),
                    ("intent", .dict [("type", .str "string")])]),
                 ("required", .list [.str "domain", .str "intent"])])]),
           ("required", .list [.str "text", .str "ui_hints"])]
  [("type", .str "edu_answer_generation"),
   ("input", .dict
     [("intent", .str intent), ("slots", .dict slots),
      ("meta", .dict safeMeta), ("state", .dict safeState)]),
   ("output_schema", outputSchema)]

/-- The effective vehicle status of the driving branch: saved status
updated with the meta-supplied status. -/
def drivingStatus (meta st : Dict) : Dict :=
  dUpdate (safeDict (pyOr (dgetD st "vehicle_status" .null) (.dict [])))
          (safeDict (pyOr (dgetD meta "vehicle_status" .null) (.dict [])))

/-- `meta.get("supported_features")` as a string list when present. -/
def supportedFeaturesOf (meta : Dict) : Option (List String) :=
  match dget meta "supported_features" with
  | some (.list xs) => some (xs.filterMap (fun v => match v with | .str s => some s | _ => none))
  | _ => none

/-- The success execution tail of the driving branch (after all safety
gates passed), on the slot map as corrected so far. -/
def drivingSuccess (o : Oracles) (domain intent : String) (slots meta st : Dict)
    (toneGuidance effectiveMode : String) : Dict × Dict :=
  let messageKeyOk := "result." ++ domain ++ "." ++ intent
  let currentStatus := drivingStatus meta st
  let slots :=
    if intent = "control_hvac" then
      let modeSlot : String := ⟨lowerChars (pyStrOr (slotValueOf slots "hvac_mode")).toList⟩
      let tempSlot := slotValueOf slots "target_temp"
      if ¬ pyTruthy tempSlot then
        if modeSlot = "heat" ∨ modeSlot = "heater" then
          dset slots "target_temp" (.dict [("value", .int 28), ("confidence", .rat 1)])
        else if modeSlot = "cool" ∨ modeSlot = "ac" ∨ modeSlot = "cool mode" then
          dset slots "target_temp" (.dict [("value", .int 18), ("confidence", .rat 1)])
        else slots
      else slots
    else slots
  let slots :=
    if intent = "navigate_to" then
      let dest := pyStrip (pyStrOr (slotValueOf slots "destination"))
      if dest ≠ "" then
        match o.navResolve with
        | some resolved =>
            let clean : String :=
              ⟨(stripChars resolved.toList).filter (fun c => c ≠ '\'' ∧ c ≠ '"')⟩
            if clean ≠ "" ∧ ¬ isSubstr "FAIL".toList clean.toList ∧ clean.length < 50 then
              dset slots "destination" (.dict [("value", .str clean), ("confidence", .rat 1)])
            else slots
        | none => slots
      else slots
    else slots
  let command := buildVehicleCommand intent slots
  let params := safeDict (dgetD command "params" (.dict []))
  let updatedStatus := updateVehicleStatusSimulation currentStatus intent params
  let baseText := "요청을 처리합니다."
  let finalTone := toneGuidance
  let p : String × String :=
    if intent = "control_hvac" then
      let act := pyStrOr (dgetD params "action" .null)
      let cmdMode : String :=
        ⟨stripChars (lowerChars (pyStrOr (dgetD params "hvac_mode" .null)).toList)⟩
      let checkMode := if cmdMode ≠ "" then cmdMode else effectiveMode
      let finalTone :=
        if checkMode = "cool" ∨ checkMode = "ac" then "cool"
        else if checkMode = "heat" ∨ checkMode = "heater" then "warm"
        else toneGuidance
      let baseText :=
        if act = "off" then "공조장치를 끕니다."
        else if finalTone = "cool" then "에어컨을 켜서 시원하게 합니다."
        else if finalTone = "warm" then "히터를 켜서 따뜻하게 합니다."
        else "공조장치를 켭니다."
      (baseText, finalTone)
    else if intent = "control_hardware" then
      let part := pyStrOr (dgetD params "part" .null)
      let act := pyStrOr (dgetD params "action" .null)
      (koPart part ++ " " ++ koAction act ++ ".", finalTone)
    else if intent = "navigate_to" then
      let dest := pyStrOr (dgetD params "destination" .null)
      (dest ++ "로 안내를 시작합니다.", finalTone)
    else (baseText, finalTone)
  let baseText := p.1
  let finalTone := p.2
  let facts := params
  let facts :=
    if intent = "control_hardware" ∧ dget facts "part" = some (.str "steering_wheel") then
      dset facts "part" (.str "steering_wheel_heater")
    else facts
  let facts := dset (dset facts "intent" (.str intent)) "status" (.str "success")
  let action : Dict :=
    [("reply", Val.dict
      [("action_type", .str "vehicle_action"),
       ("text", .str baseText),
       ("command", .dict command),
       ("ui_hints", .dict
         [("domain", .str domain), ("intent", .str intent),
          ("tone_guidance", .str finalTone)]),
       ("message_key_ok", .str messageKeyOk),
       ("payload", .dict facts)])]
  (action, mergeState st
    [("current_domain", .str domain), ("active_intent", .str intent),
     ("vehicle_status", .dict updatedStatus), ("slots", .dict slots)])

/-- The NLU-miss hvac-mode correction of the driving control tail. -/
def drivingCorrectedSlots (intent : String) (slots meta : Dict) : Dict :=
  let isControl := intent = "control_hvac" ∨ intent = "control_hardware"
  if isControl ∧ intent = "control_hvac" ∧ slotValueOf slots "hvac_mode" = Val.null then
    let userMsgRaw := (pyStrOr (dgetD meta "user_message_preview" .null)).toList.filter (fun c => c ≠ ' ')
    if isSubstr "에어컨".toList userMsgRaw ∨ isSubstr "냉방".toList userMsgRaw ∨
        isSubstr "에어콘".toList userMsgRaw then
      dset slots "hvac_mode" (.dict [("value", .str "cool"), ("confidence", .rat 1)])
    else if isSubstr "히터".toList userMsgRaw ∨ isSubstr "난방".toList userMsgRaw then
      dset slots "hvac_mode" (.dict [("value", .str "heat"), ("confidence", .rat 1)])
    else slots
  else slots

/-- The first tone-guidance pass (hardware part based), on the corrected
slot map. -/
def drivingTone1 (intent : String) (slots : Dict) : String :=
  let isControl := intent = "control_hvac" ∨ intent = "control_hardware"
  if isControl ∧ intent = "control_hardware" then
    let partSlot := pyStrOr (slotValueOf slots "target_part")
    if partSlot = "seat_heater" ∨ partSlot = "steering_wheel" then "warm"
    else if partSlot = "seat_ventilation" then "cool"
    else "neutral"
  else "neutral"

/-- The effective hvac mode (slot mode or current-status mode), on the
corrected slot map. -/
def drivingEffectiveMode (intent : String) (slots meta st : Dict)
    (toneGuidance : String) : String :=
  let isControl := intent = "control_hvac" ∨ intent = "control_hardware"
  if isControl ∧ toneGuidance = "neutral" then
    let slotMode : String :=
      if intent = "control_hvac" then
        ⟨stripChars (lowerChars (pyStrOr (slotValueOf slots "hvac_mode")).toList)⟩
      else ""
    if slotMode ≠ "" then slotMode
    else ⟨stripChars (lowerChars (pyStrOr (dgetD (drivingStatus meta st) "hvac_mode" .null)).toList)⟩
  else ""

/-- The second tone-guidance pass (effective-mode based). -/
def drivingTone2 (intent : String) (toneGuidance effectiveMode : String) : String :=
  let isControl := intent = "control_hvac" ∨ intent = "control_hardware"
  if isControl ∧ toneGuidance = "neutral" then
    if effectiveMode = "cool" ∨ effectiveMode = "ac" then "cool"
    else if effectiveMode = "heat" ∨ effectiveMode = "heater" then "warm"
    else toneGuidance
  else toneGuidance

/-- The control tail of the driving branch (after the validity gates):
NLU-miss correction, tone guidance, the LLM safety gate, then success. -/
def drivingControl (o : Oracles) (domain intent : String) (slots meta st : Dict) :
    Dict × Dict :=
  let isControl := intent = "control_hvac" ∨ intent = "control_hardware"
  let slots := drivingCorrectedSlots intent slots meta
  let toneGuidance := drivingTone1 intent slots
  let effectiveMode := drivingEffectiveMode intent slots meta st toneGuidance
  let toneGuidance := drivingTone2 intent toneGuidance effectiveMode
  let responseType := dgetD o.safetyResult "response_type" .null
  if isControl ∧ responseType = .str "confirm_conflict" then
    let reasonVal := pyOr (dgetD o.safetyResult "reason_kor" .null) (.str "현재 상황과 맞지 않는 요청입니다.")
    let action : Dict :=
      [("reply", Val.dict
        [("action_type", .str "answer"),
         ("text", .str (pyStr reasonVal ++ " 그래도 진행할까요?")),
         ("ui_hints", .dict
           [("domain", .str domain), ("intent", .str intent), ("status", .str "conflict_confirm")]),
         ("message_key_ok", .str "result.driving.conflict"),
         ("payload", .dict
           [("intent", .str intent), ("status", .str "conflict_confirm"),
            ("reasoning", reasonVal), ("is_safe", .bool false),
            ("tone_guidance", .str toneGuidance), ("hvac_mode", .str effectiveMode)])])]
    (action, mergeState st
      [("current_domain", .str domain), ("active_intent", .str intent),
       ("debug_last_reason", .str "llm_safety_conflict"), ("slots", .dict slots)])
  else if isControl ∧ responseType = .str "reject" then
    let reasonVal := pyOr (dgetD o.safetyResult "reason_kor" .null) (.str "수행할 수 없는 요청입니다.")
    let action : Dict :=
      [("reply", Val.dict
        [("action_type", .str "answer"),
         ("text", .str (pyStr reasonVal)),
         ("ui_hints", .dict
           [("domain", .str domain), ("intent", .str intent), ("status", .str "rejected")]),
         ("message_key_ok", .str "result.driving.reject"),
         ("payload", .dict
           [("status", .str "rejected"), ("reasoning", reasonVal),
            ("tone_guidance", .str toneGuidance), ("hvac_mode", .str effectiveMode)])])]
    (action, mergeState st
      [("current_domain", .str domain), ("active_intent", .str intent),
       ("debug_last_reason", .str "llm_safety_reject"), ("slots", .dict slots)])
  else drivingSuccess o domain intent slots meta st toneGuidance effectiveMode

/-- The driving branch of `validate_and_build_action` (never raises:
its oracle calls are all guarded in the source). -/
def validateDriving (o : Oracles) (domain intent : String) (slots meta st : Dict) :
    Dict × Dict :=
  let messageKeyOk := "result." ++ domain ++ "." ++ intent
  if intent = "general_chat" then
    let userQueryS := pyStrOr (slotValueOf slots "query")
    let queryVal : Val :=
      if userQueryS = "" then pyOr (dgetD meta "user_message_preview" .null) (.str "대화")
      else .str userQueryS
    let aiReply := o.chatReply.getD "제가 운전 중이라 잠시 딴생각을 했나 봐요. 다시 말씀해 주시겠어요?"
    let action : Dict :=
      [("reply", Val.dict
        [("action_type", .str "answer"),
         ("text", .str aiReply),
         ("ui_hints", .dict [("domain", .str domain), ("intent", .str intent)]),
         ("message_key_ok", .str messageKeyOk),
         ("payload", .dict
           [("intent", .str intent), ("status", .str "general_chat"), ("query", queryVal)])])]
    (action, mergeState st
      [("current_domain", .str domain), ("active_intent", .str intent), ("slots", .dict slots)])
  else
    let conflictReason :=
      checkActionValidity intent slots (drivingStatus meta st) (supportedFeaturesOf meta)
    if conflictReason = some "feature_not_supported" then
      let action : Dict :=
        [("reply", Val.dict
          [("action_type", .str "answer"),
           ("text", .str "지원하지 않는 기능입니다."),
           ("message_key", .str "result.driving.conflict.feature_not_supported"),
           ("ui_hints", .dict
             [("domain", .str domain), ("intent", .str intent), ("status", .str "unsupported")]),
           ("payload", .dict [("intent", .str intent), ("status", .str "unsupported")])])]
      (action, mergeState st
        [("current_domain", .str domain), ("active_intent", .str intent), ("slots", .dict slots)])
    else if conflictReason = some "unsafe_driving" then
      let action : Dict :=
        [("reply", Val.dict
          [("action_type", .str "answer"),
           ("text", .str "주행 중에는 해당 기능을 사용할 수 없습니다."),
           ("ui_hints", .dict
             [("domain", .str domain), ("intent", .str intent), ("status", .str "rejected")]),
           ("message_key_ok", .str "result.driving.reject"),
           ("payload", .dict
             [("status", .str "rejected"),
              ("reasoning", .str "주행 중 안전을 위해 제한된 기능입니다.")])])]
      (action, mergeState st
        [("current_domain", .str domain), ("active_intent", .str intent), ("slots", .dict slots)])
    else drivingControl o domain intent slots meta st

/-- Try the recovery candidates in order against the catalog. -/
def lookupFirst (catalog : Catalog) (sid kt : Val) :
    List String → Except Unit (Option (MenuItem × String))
  | [] => .ok none
  | c :: rest => do
      match ← catalog sid kt (.str c) with
      | some it => return some (it, c)
      | none => lookupFirst catalog sid kt rest

/-- The option-group slot normalization the `add_item` branch performs
before any catalog call (`_normalize_option_groups` plus the temperature
value rewrite). -/
def kioskOptionGroups (slots : Dict) : Dict :=
  let optionGroups := normalizeOptionGroups (slotValueOf slots "option_groups")
  if dmem optionGroups "temperature" then
    dset optionGroups "temperature" (normalizeTemperatureValue (dgetD optionGroups "temperature" .null))
  else optionGroups

/-- The `menu_not_found` answer action of the `add_item` branch. -/
def notFoundAction (domain intent : String) (itemName : Val) : Dict :=
  [("reply", Val.dict
    [("action_type", .str "answer"),
     ("text", .str ("'" ++ pyStr itemName ++ "' 메뉴를 찾지 못했어요. 다른 메뉴를 선택해 주세요.")),
     ("ui_hints", .dict [("domain", .str domain), ("intent", .str intent)]),
     ("message_key_ok", .str ("result." ++ domain ++ "." ++ intent)),
     ("message_key_fail", .str "result.fail.generic")])]

/-- The `action_type` of an action dict's `reply` entry. -/
def actionTypeOf (a : Dict) : Val :=
  dgetD (safeDict (dgetD a "reply" .null)) "action_type" .null

/-- The kiosk `add_item` branch of `validate_and_build_action`.  Catalog
errors are unguarded in the source and propagate. -/
def validateKioskAddItem (catalog : Catalog) (domain intent : String) (slots meta st : Dict) :
    Except Unit (Dict × Dict) :=
  let messageKeyOk := "result." ++ domain ++ "." ++ intent
  let messageKeyFail := "result.fail.generic"
  let itemName := slotValueOf slots "item_name"
  let quantity := pyOr (slotValueOf slots "quantity") (.int 1)
  let optionGroups := kioskOptionGroups slots
  let storeId := dgetD meta "store_id" .null
  let kioskType := dgetD meta "kiosk_type" .null
  if ¬ pyTruthy storeId ∨ ¬ pyTruthy kioskType ∨ ¬ pyTruthy itemName then
    let action : Dict :=
      [("reply", Val.dict
        [("action_type", .str "answer"),
         ("text", .str "메뉴 정보를 확인하지 못했어요. 다시 한 번 말씀해 주세요."),
         ("ui_hints", .dict [("domain", .str domain), ("intent", .str intent)]),
         ("message_key_ok", .str messageKeyOk),
         ("message_key_fail", .str messageKeyFail)])]
    .ok (action, mergeState st [("debug_last_reason", .str "missing_meta_or_item_name")])
  else do
    let item0 ← catalog storeId kioskType itemName
    let found ←
      match item0 with
      | some it => pure (some (it, "", false))
      | none => do
          let cands := recoverItemNameCandidates itemName optionGroups
          match ← lookupFirst catalog storeId kioskType cands with
          | some (it, cand) => pure (some (it, cand, true))
          | none => pure (none : Option (MenuItem × String × Bool))
    match found with
    | none =>
        return (notFoundAction domain intent itemName,
          mergeState st [("debug_last_reason", .str "menu_not_found")])
    | some (item, usedName, recovered) =>
        let slotsForPolicy :=
          if recovered then
            dset slots "item_name" (.dict [("value", .str usedName), ("confidence", .rat (0.6 : Rat))])
          else slots
        let requiredGroups ← getRequiredOptionGroupsForAddItem meta slotsForPolicy catalog
        match findMissingRequiredOptionGroup requiredGroups (.dict optionGroups) with
        | some g =>
            let text :=
              if g = "temperature" then "뜨거운/아이스 중 어떤 걸로 드릴까요?"
              else if g = "size" then "사이즈는 어떤 걸로 드릴까요? (S/M/L)"
              else g ++ " 옵션을 선택해 주세요."
            let choices : Val :=
              match item.option_groups with
              | some ogs =>
                  if ogs.isEmpty then .null
                  else
                    match ogs.lookup g with
                    | some cs => .list (cs.map Val.str)
                    | none => .null
              | none => .null
            let action : Dict :=
              [("reply", Val.dict
                [("action_type", .str "ask_option_group"),
                 ("text", .str text),
                 ("ui_hints", .dict
                   [("domain", .str domain), ("intent", .str intent),
                    ("expect_option_group", .str g), ("choices", choices)])])]
            let slotsMin : Dict :=
              [("item_name", dgetD slots "item_name" .null),
               ("quantity", dgetD slots "quantity" .null),
               ("option_groups", .dict
                 [("value", .dict optionGroups), ("confidence", .rat (0.9 : Rat))]),
               ("notes", dgetD slots "notes" .null)]
            return (action, mergeState st
              [("current_domain", .str domain), ("active_intent", .str intent),
               ("slots", .dict slotsMin), ("pending_option_group", .str g),
               ("pending_option_group_choices", choices),
               ("last_bot_action", .str "ask_option_group"),
               ("debug_last_reason", .str ("missing_option_group:" ++ g))])
        | none =>
            let action : Dict :=
              [("reply", Val.dict
                [("action_type", .str "add_to_cart"),
                 ("text", .str (item.name ++ " " ++ pyStr quantity ++ "개를 장바구니에 담았어요.")),
                 ("ui_hints", .dict [("domain", .str domain), ("intent", .str intent)]),
                 ("payload", .dict
                   [("item_id", .str item.item_id), ("name", .str item.name),
                    ("price", match item.price with | some n => .int n | none => .null),
                    ("quantity", quantity), ("option_groups", .dict optionGroups)])])]
            return (action, mergeState st
              [("current_domain", .str domain), ("active_intent", .null),
               ("slots", .dict []), ("last_bot_action", .str "add_to_cart"),
               ("debug_last_reason", .str "added_to_cart"),
               ("pending_option_group", .null),
               ("pending_option_group_choices", .null)])

/-- The education branch of `validate_and_build_action`. -/
def validateEducation (domain intent : String) (slots meta st : Dict) : Dict × Dict :=
  let messageKeyOk := "result." ++ domain ++ "." ++ intent
  let messageKeyFail := "result.fail.generic"
  let newState := mergeState st
    [("current_domain", .str "education"), ("active_intent", .str intent),
     ("slots", .dict slots), ("last_bot_action", .str "answer"),
     ("debug_last_reason", .str ("edu:llm_generate:" ++ intent))]
  let llmTask := eduMakeLlmTask intent slots meta newState
  let action : Dict :=
    [("reply", Val.dict
      [("text", .str "처리할게요."),
       ("action_type", .str "answer"),
       ("ui_hints", .dict [("domain", .str domain), ("intent", .str intent)]),
       ("message_key_ok", .str messageKeyOk),
       ("message_key_fail", .str messageKeyFail)]),
     ("llm_task", .dict llmTask)]
  (action, newState)

/-- The fallback branch of `validate_and_build_action`. -/
def validateFallback (domain intent : String) (slots st : Dict) : Dict × Dict :=
  let messageKeyOk := "result." ++ domain ++ "." ++ intent
  let messageKeyFail := "result.fail.generic"
  let t := templatesGet messageKeyOk
  let text := if t = "" then "처리할게요." else t
  let action : Dict :=
    [("reply", Val.dict
      [("text", .str text),
       ("action_type", .str "answer"),
       ("ui_hints", .dict [("domain", .str domain), ("intent", .str intent)]),
       ("message_key_ok", .str messageKeyOk),
       ("message_key_fail", .str messageKeyFail)])]
  (action, mergeState st [("debug_last_reason", .str "action:planned"), ("slots", .dict slots)])

/-- `validate_and_build_action(domain, intent, slots, meta, state)`:
dispatch over the source's domain branches. -/
def validateAndBuildAction (o : Oracles) (catalog : Catalog) (domain intent : String)
    (slots meta st : Dict) : Except Unit (Dict × Dict) :=
  if domain = "driving" then .ok (validateDriving o domain intent slots meta st)
  else if domain = "kiosk" ∧ intent = "add_item" then
    validateKioskAddItem catalog domain intent slots meta st
  else if domain = "education" then .ok (validateEducation domain intent slots meta st)
  else .ok (validateFallback domain intent slots st)

/-! ### `session/session_manager.py` — `_new_state` -/

/-- `SessionManager._new_state()` at wall-clock time `now`. -/
def newState (now : Rat) : Dict :=
  [("conversation_id", .str ("conv_" ++ toString ((pyToInt (.rat (now * 1000))).getD 0))),
   ("turn_index", .int 0),
   ("history_summary", .str ""),
   ("history", .list []),
   ("current_domain", .null),
   ("active_intent", .null),
   ("slots", .dict []),
   ("persona", .null),
   ("tone_style", .null),
   ("mood_preset", .str "cheerful"),
   ("topic_hint", .null),
   ("verbosity", .str "normal"),
   ("last_bot_action", .null),
   ("created_at", .rat now),
   ("updated_at", .rat now)]

/-- One turn's validator inputs, as `handle_turn` feeds them per turn. -/
structure TurnInput where
  oracles : Oracles
  catalog : Catalog
  domain : String
  intent : String
  slots : Dict
  meta : Dict

/-- Run a sequence of validator turns on one session state, threading the
persisted new state of each turn into the next; `none` when some turn's
catalog call raised. -/
def runTurns (st : Dict) : List TurnInput → Option Dict
  | [] => some st
  | t :: rest =>
      match validateAndBuildAction t.oracles t.catalog t.domain t.intent t.slots t.meta st with
      | .ok (_, st') => runTurns st' rest
      | .error _ => none

/-- The action of a non-raising validator result (`[]` on a raise). -/
def okFst (e : Except Unit (Dict × Dict)) : Dict :=
  match e with
  | .ok p => p.1
  | .error _ => []

/-- The new state of a non-raising validator result (`[]` on a raise). -/
def okSnd (e : Except Unit (Dict × Dict)) : Dict :=
  match e with
  | .ok p => p.2
  | .error _ => []

/-! ### Dictionary lemmas -/

/-- Well-formedness of a modelled Python dict: keys occur at most once. -/
def dictWF (d : Dict) : Prop :=
  (d.map Prod.fst).Nodup

instance (d : Dict) : Decidable (dictWF d) := by
  unfold dictWF
  infer_instance

theorem dget_dset_self (d : Dict) (k : String) (v : Val) :
    dget (dset d k v) k = some v := by
  induction d with
  | nil => simp [dset, dget]
  | cons kv rest ih =>
      by_cases h : kv.1 = k
      · simp [dset, dget, h]
      · simp [dset, dget, h, ih]

theorem dget_dset_ne (d : Dict) (k k' : String) (v : Val) (h : k' ≠ k) :
    dget (dset d k v) k' = dget d k' := by
  have h' : ¬ (k = k') := fun he => h he.symm
  induction d with
  | nil => simp [dset, dget, h']
  | cons kv rest ih =>
      by_cases hk : kv.1 = k
      · have hkk' : ¬ (kv.1 = k') := by rw [hk]; exact h'
        simp [dset, dget, hk, hkk', h']
      · by_cases hk' : kv.1 = k'
        · simp [dset, dget, hk, hk', h, h']
        · simp [dset, dget, hk, hk', ih]

theorem mem_keys_dset (d : Dict) (k : String) (v : Val) (x : String) :
    x ∈ (dset d k v).map Prod.fst ↔ x ∈ d.map Prod.fst ∨ x = k := by
  induction d with
  | nil => simp [dset]
  | cons kv rest ih =>
      by_cases hk : kv.1 = k
      · simp only [dset, if_pos hk, List.map_cons, List.mem_cons]
        constructor
        · intro hh
          rcases hh with h1 | h2
          · exact Or.inl (Or.inl h1)
          · exact Or.inl (Or.inr h2)
        · intro hh
          rcases hh with (h1 | h2) | h3
          · exact Or.inl h1
          · exact Or.inr h2
          · exact Or.inl (by rw [h3, hk])
      · simp only [dset, if_neg hk, List.map_cons, List.mem_cons, ih]
        tauto

theorem dictWF_dset (d : Dict) (k : String) (v : Val) (hwf : dictWF d) :
    dictWF (dset d k v) := by
  induction d with
  | nil => simp [dset, dictWF]
  | cons kv rest ih =>
      simp only [dictWF, List.map_cons, List.nodup_cons] at hwf
      by_cases hk : kv.1 = k
      · simpa [dset, hk, dictWF] using hwf
      · simp only [dset, if_neg hk, dictWF, List.map_cons, List.nodup_cons]
        refine ⟨?_, ih hwf.2⟩
        rw [mem_keys_dset]
        rintro (h1 | h2)
        · exact hwf.1 h1
        · exact hk h2

theorem dpop_sublist (d : Dict) (k : String) : List.Sublist (dpop d k) d := by
  induction d with
  | nil => simp [dpop]
  | cons kv rest ih =>
      by_cases hk : kv.1 = k
      · simp only [dpop, if_pos hk]
        exact List.sublist_cons_self _ _
      · simp only [dpop, if_neg hk]
        exact List.Sublist.cons₂ _ ih

theorem dictWF_dpop (d : Dict) (k : String) (hwf : dictWF d) : dictWF (dpop d k) :=
  ((dpop_sublist d k).map Prod.fst).nodup hwf

theorem dget_eq_none_of_not_key (d : Dict) (k : String)
    (h : ∀ kv ∈ d, kv.1 ≠ k) : dget d k = none := by
  induction d with
  | nil => simp [dget]
  | cons kv rest ih =>
      simp only [dget]
      rw [if_neg (h kv (List.mem_cons_self _ _))]
      exact ih (fun kv' hkv' => h kv' (List.mem_cons_of_mem _ hkv'))

theorem dget_dpop_self (d : Dict) (k : String) (hwf : dictWF d) :
    dget (dpop d k) k = none := by
  induction d with
  | nil => simp [dpop, dget]
  | cons kv rest ih =>
      simp only [dictWF, List.map_cons, List.nodup_cons] at hwf
      by_cases hk : kv.1 = k
      · simp only [dpop, if_pos hk]
        apply dget_eq_none_of_not_key
        intro kv' hkv' he
        exact hwf.1 (by rw [hk, ← he]; exact List.mem_map_of_mem Prod.fst hkv')
      · simp only [dpop, if_neg hk, dget, hk, if_false]
        exact ih hwf.2

theorem dget_dpop_ne (d : Dict) (k k' : String) (h : k' ≠ k) :
    dget (dpop d k) k' = dget d k' := by
  induction d with
  | nil => simp [dpop]
  | cons kv rest ih =>
      by_cases hk : kv.1 = k
      · have hkk' : ¬ (kv.1 = k') := by rw [hk]; exact fun he => h he.symm
        simp [dpop, dget, hk, hkk', Ne.symm h]
      · simp only [dpop, if_neg hk, dget, ih]

theorem dictWF_foldl_dset (l : List (String × Val)) (a : Dict) (hwf : dictWF a) :
    dictWF (l.foldl (fun acc kv => dset acc kv.1 kv.2) a) := by
  induction l generalizing a with
  | nil => simpa using hwf
  | cons kv rest ih => exact ih _ (dictWF_dset _ _ _ hwf)

theorem dictWF_mergeDict (a b : Dict) (hwf : dictWF a) : dictWF (mergeDict a b) := by
  unfold mergeDict
  induction b generalizing a with
  | nil => simpa using hwf
  | cons kv rest ih =>
      simp only [List.foldl_cons]
      by_cases h : kv.2 = Val.null
      · simp only [h, if_pos rfl]
        exact ih _ hwf
      · simp only [if_neg h]
        exact ih _ (dictWF_dset _ _ _ hwf)

theorem dictWF_filter (d : Dict) (p : String × Val → Bool) (hwf : dictWF d) :
    dictWF (d.filter p) := by
  exact ((d.filter_sublist).map Prod.fst).nodup hwf

theorem dget_dUpdate_not_key (a b : Dict) (k : String)
    (h : ∀ kv ∈ b, kv.1 ≠ k) : dget (dUpdate a b) k = dget a k := by
  unfold dUpdate
  induction b generalizing a with
  | nil => simp
  | cons kv rest ih =>
      simp only [List.foldl_cons]
      rw [ih _ (fun kv' hkv' => h kv' (List.mem_cons_of_mem _ hkv'))]
      exact dget_dset_ne _ _ _ _ (fun he => h kv (List.mem_cons_self _ _) he.symm)

theorem dget_mergeState_other (st patch : Dict) (k : String)
    (hk : k ≠ "turn_index") (hp : ∀ kv ∈ patch, kv.1 ≠ k) :
    dget (mergeState st patch) k = dget st k := by
  unfold mergeState
  rw [dget_dset_ne _ _ _ _ hk]
  exact dget_dUpdate_not_key _ _ _ hp

theorem dget_mergeState_turn_index (st patch : Dict) (n : Int)
    (hst : dget st "turn_index" = some (.int n))
    (hp : ∀ kv ∈ patch, kv.1 ≠ "turn_index") :
    dget (mergeState st patch) "turn_index" = some (.int (n + 1)) := by
  unfold mergeState
  rw [dget_dset_self]
  have hup : dget (dUpdate st patch) "turn_index" = some (.int n) := by
    rw [dget_dUpdate_not_key _ _ _ hp]; exact hst
  simp [dgetD, hup, pyToInt]

theorem dget_mergeState_patch (st patch : Dict) (k : String) (v : Val)
    (hk : k ≠ "turn_index")
    (hv : dget (dUpdate st patch) k = some v) :
    dget (mergeState st patch) k = some v := by
  unfold mergeState
  rw [dget_dset_ne _ _ _ _ hk]
  exact hv

/-! ## Claim theorems -/

/-- The `slots` dict of a normalizer output / state dict. -/
def slotsOf (d : Dict) : Dict :=
  safeDict (dgetD d "slots" .null)

theorem slotsOf_applySessionRules_edu (state nlu : Val) (userMessage : String)
    (hdom : pyStrip (safeStr (pyOr (dgetD (safeDict nlu) "domain" .null)
      (dgetD (safeDict state) "current_domain" .null))) = "education") :
    slotsOf (applySessionRules state nlu userMessage) =
      eduMergeSlots (safeDict state) (safeDict (dgetD (safeDict state) "slots" .null))
        (safeDict (dgetD (safeDict nlu) "slots" .null)) userMessage := by
  unfold applySessionRules
  simp only [hdom, ne_eq, not_true, if_false, if_true, reduceIte]
  unfold slotsOf
  simp only [dgetD, dget_dset_self, Option.getD, safeDict]

theorem eduMergeSlots_not_followup (st prevSlots slotsIn : Dict) (msg : String)
    (hwf : dictWF prevSlots)
    (hfu : isFollowup msg st = false) :
    (∀ k, k ∈ EDU_CONTEXT_KEYS → k ≠ "topic" →
      dget (eduMergeSlots st prevSlots slotsIn msg) k = none) ∧
    (∀ v, dget (eduMergeSlots st prevSlots slotsIn msg) "topic" = some v →
      dget slotsIn "topic" = some v ∧ hasNonempty (slotValue v) = true ∧
      shouldKeepNewTopicWhenNotFollowup msg (slotValue v) = true) := by
  unfold eduMergeSlots
  simp only [hfu, Bool.false_eq_true, not_false_eq_true, if_true, reduceIte]
  have hw1 : dictWF (mergeDict
      (mergeDict
        (mergeDict (prevSlots.filter (fun kv => EDU_PREFERENCE_KEYS.contains kv.1))
          (slotsIn.filter (fun kv => EDU_PREFERENCE_KEYS.contains kv.1)))
        (prevSlots.filter (fun kv =>
          ¬ (EDU_PREFERENCE_KEYS.contains kv.1 ∨ EDU_CONTEXT_KEYS.contains kv.1))))
      (slotsIn.filter (fun kv =>
        ¬ (EDU_PREFERENCE_KEYS.contains kv.1 ∨ EDU_CONTEXT_KEYS.contains kv.1)))) :=
    dictWF_mergeDict _ _ (dictWF_mergeDict _ _
      (dictWF_mergeDict _ _ (dictWF_filter _ _ hwf)))
  generalize hM : mergeDict
      (mergeDict
        (mergeDict (prevSlots.filter (fun kv => EDU_PREFERENCE_KEYS.contains kv.1))
          (slotsIn.filter (fun kv => EDU_PREFERENCE_KEYS.contains kv.1)))
        (prevSlots.filter (fun kv =>
          ¬ (EDU_PREFERENCE_KEYS.contains kv.1 ∨ EDU_CONTEXT_KEYS.contains kv.1))))
      (slotsIn.filter (fun kv =>
        ¬ (EDU_PREFERENCE_KEYS.contains kv.1 ∨ EDU_CONTEXT_KEYS.contains kv.1))) = M
    at hw1 ⊢
  simp only [EDU_CONTEXT_KEYS, List.foldl_cons, List.foldl_nil]
  have hwt : dictWF (dpop M "topic") := dictWF_dpop _ _ hw1
  have hwc : dictWF (dpop (dpop M "topic") "content") := dictWF_dpop _ _ hwt
  have hws : dictWF (dpop (dpop (dpop M "topic") "content") "student_answer") :=
    dictWF_dpop _ _ hwc
  constructor
  · intro k hk hkt
    have hcases : k = "topic" ∨ k = "content" ∨ k = "student_answer" ∨ k = "question" := by
      simpa [EDU_CONTEXT_KEYS] using hk
    rcases hcases with h | h | h | h
    · exact absurd h hkt
    all_goals subst h
    · split_ifs
      · rw [dget_dset_ne _ _ _ _ (by decide)]
        rw [dget_dpop_ne _ _ _ (by decide), dget_dpop_ne _ _ _ (by decide)]
        exact dget_dpop_self _ _ hwt
      · rw [dget_dpop_ne _ _ _ (by decide), dget_dpop_ne _ _ _ (by decide)]
        exact dget_dpop_self _ _ hwt
    · split_ifs
      · rw [dget_dset_ne _ _ _ _ (by decide)]
        rw [dget_dpop_ne _ _ _ (by decide)]
        exact dget_dpop_self _ _ hwc
      · rw [dget_dpop_ne _ _ _ (by decide)]
        exact dget_dpop_self _ _ hwc
    · split_ifs
      · rw [dget_dset_ne _ _ _ _ (by decide)]
        exact dget_dpop_self _ _ hws
      · exact dget_dpop_self _ _ hws
  · intro v hv
    have hwq : dictWF (dpop (dpop (dpop (dpop M "topic") "content") "student_answer")
        "question") := dictWF_dpop _ _ hws
    have hnone : dget (dpop (dpop (dpop (dpop M "topic") "content") "student_answer")
        "question") "topic" = none := by
      rw [dget_dpop_ne _ _ _ (by decide), dget_dpop_ne _ _ _ (by decide),
          dget_dpop_ne _ _ _ (by decide)]
      exact dget_dpop_self _ _ hw1
    split_ifs at hv with hkn
    · rw [dget_dset_self] at hv
      obtain ⟨hmem, hne, hgr⟩ := hkn
      refine ⟨?_, ?_, ?_⟩
      · cases hv
        unfold dmem at hmem
        cases hget : dget slotsIn "topic" with
        | none => rw [hget] at hmem; simp at hmem
        | some w =>
            rw [hget] at hmem
            simp only [dgetD, hget, Option.getD]
      · cases hv
        unfold dgetD at hne ⊢
        exact hne
      · cases hv
        exact hgr
    · rw [hnone] at hv
      exact absurd hv (by simp)


/-- C3: in the education domain, when the follow-up classifier returns
false, no episodic context slot (`topic`, `content`, `student_answer`,
`question`) carried from the prior state appears in the normalizer's merged
slot output; an incoming `topic` value appears only when it came from the
incoming NLU slots, is non-empty, and is grounded in the current utterance
per `_should_keep_new_topic_when_not_followup` (exact substring, normalized
substring, or a keyword token of length ≥ 2). -/
theorem C3_education_episodic_reset (state nlu : Val) (userMessage : String)
    (hwf : dictWF (safeDict (dgetD (safeDict state) "slots" Val.null)))
    (hdom : pyStrip (safeStr (pyOr (dgetD (safeDict nlu) "domain" .null)
      (dgetD (safeDict state) "current_domain" .null))) = "education")
    (hfu : isFollowup userMessage (safeDict state) = false) :
    (∀ k, k ∈ EDU_CONTEXT_KEYS → k ≠ "topic" →
      dget (slotsOf (applySessionRules state nlu userMessage)) k = none) ∧
    (∀ v, dget (slotsOf (applySessionRules state nlu userMessage)) "topic" = some v →
      dget (safeDict (dgetD (safeDict nlu) "slots" .null)) "topic" = some v ∧
      hasNonempty (slotValue v) = true ∧
      shouldKeepNewTopicWhenNotFollowup userMessage (slotValue v) = true) := by
  rw [slotsOf_applySessionRules_edu state nlu userMessage hdom]
  exact eduMergeSlots_not_followup _ _ _ _ hwf hfu

theorem C3_education_episodic_reset_witness :
    dget (slotsOf (applySessionRules
      (Val.dict [("slots", Val.dict
        [("topic", Val.dict [("value", Val.str "분수"), ("confidence", Val.rat 1)]),
         ("content", Val.str "지난 시간 내용")])])
      (Val.dict [("domain", Val.str "education"), ("slots", Val.dict [])])
      "파이썬이 뭐야")) "content" = none := by
  have h := C3_education_episodic_reset
    (Val.dict [("slots", Val.dict
      [("topic", Val.dict [("value", Val.str "분수"), ("confidence", Val.rat 1)]),
       ("content", Val.str "지난 시간 내용")])])
    (Val.dict [("domain", Val.str "education"), ("slots", Val.dict [])])
    "파이썬이 뭐야" (by decide) (by decide) (by decide)
  exact h.1 "content" (by decide) (by decide)

theorem dpop_eq_of_not_mem (d : Dict) (k : String) (h : dget d k = none) :
    dpop d k = d := by
  induction d with
  | nil => simp [dpop]
  | cons kv rest ih =>
      simp only [dget] at h
      by_cases hk : kv.1 = k
      · rw [if_pos hk] at h
        exact absurd h (by simp)
      · rw [if_neg hk] at h
        simp only [dpop, if_neg hk]
        rw [ih h]

theorem slotsOf_applySessionRules_non_edu (state nlu : Val) (msg : String)
    (hdom : pyStrip (safeStr (pyOr (dgetD (safeDict nlu) "domain" .null)
      (dgetD (safeDict state) "current_domain" .null))) ≠ "education")
    (hnp : ¬ (pyStrip (safeStr (dgetD (safeDict state) "pending_option_group" .null)) ≠ "" ∧
        lastBotActionOf (safeDict state) = "ask_option_group")) :
    slotsOf (applySessionRules state nlu msg) =
      safeDict (dgetD (safeDict nlu) "slots" .null) := by
  unfold applySessionRules
  simp only [hdom, ne_eq, not_false_eq_true, if_true, if_false, reduceIte, hnp]
  unfold slotsOf
  simp only [dgetD, dget_dset_self, Option.getD, safeDict]

theorem slotsOf_applySessionRules_pending (state nlu : Val) (msg : String)
    (hdom : pyStrip (safeStr (pyOr (dgetD (safeDict nlu) "domain" .null)
      (dgetD (safeDict state) "current_domain" .null))) ≠ "education")
    (hp : pyStrip (safeStr (dgetD (safeDict state) "pending_option_group" .null)) ≠ "")
    (hl : lastBotActionOf (safeDict state) = "ask_option_group") :
    slotsOf (applySessionRules state nlu msg) =
      (if (pendingSlotRework (safeDict (dgetD (safeDict state) "slots" .null))
            (safeDict (dgetD (safeDict nlu) "slots" .null))
            (pyStrip (safeStr (dgetD (safeDict state) "pending_option_group" .null)))
            (dgetD (safeDict state) "pending_option_group_choices" .null)
            (pyStrip msg)).1 then
         mergeDict (safeDict (dgetD (safeDict state) "slots" .null))
           (pendingSlotRework (safeDict (dgetD (safeDict state) "slots" .null))
             (safeDict (dgetD (safeDict nlu) "slots" .null))
             (pyStrip (safeStr (dgetD (safeDict state) "pending_option_group" .null)))
             (dgetD (safeDict state) "pending_option_group_choices" .null)
             (pyStrip msg)).2
       else
         (pendingSlotRework (safeDict (dgetD (safeDict state) "slots" .null))
           (safeDict (dgetD (safeDict nlu) "slots" .null))
           (pyStrip (safeStr (dgetD (safeDict state) "pending_option_group" .null)))
           (dgetD (safeDict state) "pending_option_group_choices" .null)
           (pyStrip msg)).2) := by
  unfold applySessionRules
  simp only [hdom, ne_eq, not_false_eq_true, if_true, if_false, reduceIte, hp, hl,
    and_self, and_true, true_and]
  unfold slotsOf
  simp only [dgetD, dget_dset_self, Option.getD, safeDict]

theorem pendingSlotRework_abandoned (prevSlots slotsIn : Dict) (pg : String)
    (choices : Val) (msg : String)
    (hc : pendingCoerce pg msg = (none, []))
    (hllm : llmCoerce slotsIn pg choices = none)
    (hdir : directChoiceCoerce msg choices = none)
    (hnew : looksLikeNewOrder msg = true) :
    pendingSlotRework prevSlots slotsIn pg choices msg =
      (false, dpop slotsIn "option_groups") := by
  unfold pendingSlotRework
  simp only [hc, hllm, hdir, hnew, if_true, if_false, and_self, and_true, true_and,
    not_true_eq_false, ne_eq, not_false_eq_true, or_self, if_pos, decide_True,
    decide_False, decide_not, Bool.not_true]
  by_cases hm : dmem slotsIn "option_groups"
  · simp [hm]
  · have : dget slotsIn "option_groups" = none := by
      unfold dmem at hm
      cases h : dget slotsIn "option_groups"
      · rfl
      · rw [h] at hm
        simp at hm
    simp [hm, dpop_eq_of_not_mem _ _ this]

/-- C9 counterexample: with a pending `temperature` clarification abandoned
because the utterance looks like a new order, the normalizer drops the
incoming `option_groups` entry, so its output slot map is **not** the
incoming NLU slot map even though no pending follow-up survives.  The input
below is non-education, the pending branch is abandoned
(`looksLikeNewOrder` fires), the incoming map has `option_groups`, and the
output does not. -/
theorem C9_counterexample :
    looksLikeNewOrder "아메리카노 주세요" = true ∧
    dget (safeDict (dgetD (safeDict (Val.dict
      [("domain", Val.str "kiosk"), ("intent", Val.str "add_item"),
       ("slots", Val.dict
         [("item_name", Val.dict [("value", Val.str "아메리카노")]),
          ("option_groups", Val.dict [("value", Val.dict [])])])]))
      "slots" Val.null)) "option_groups" ≠ none ∧
    dget (slotsOf (applySessionRules
      (Val.dict
        [("current_domain", Val.str "kiosk"), ("active_intent", Val.str "add_item"),
         ("pending_option_group", Val.str "temperature"),
         ("pending_option_group_choices", Val.list [Val.str "hot", Val.str "ice"]),
         ("last_bot_action", Val.str "ask_option_group"),
         ("slots", Val.dict [("item_name", Val.dict [("value", Val.str "라떼")])])])
      (Val.dict
        [("domain", Val.str "kiosk"), ("intent", Val.str "add_item"),
         ("slots", Val.dict
           [("item_name", Val.dict [("value", Val.str "아메리카노")]),
            ("option_groups", Val.dict [("value", Val.dict [])])])])
      "아메리카노 주세요")) "option_groups" = none := by decide

/-- C9 (amended): for every non-education domain, when the turn is not a
pending option-group follow-up (no pending marker or last action is not
`ask_option_group`), the normalizer's output slot map is exactly the
incoming NLU slot map; when a pending follow-up is abandoned because
coercion produced nothing and the utterance looks like a new order, the
output is the incoming map with its `option_groups` entry removed.  In both
cases no slot from the prior state is carried forward. -/
theorem C9_non_edu_slots_passthrough (state nlu : Val) (msg : String)
    (hdom : pyStrip (safeStr (pyOr (dgetD (safeDict nlu) "domain" .null)
      (dgetD (safeDict state) "current_domain" .null))) ≠ "education") :
    (¬ (pyStrip (safeStr (dgetD (safeDict state) "pending_option_group" .null)) ≠ "" ∧
        lastBotActionOf (safeDict state) = "ask_option_group") →
      slotsOf (applySessionRules state nlu msg) =
        safeDict (dgetD (safeDict nlu) "slots" .null)) ∧
    ((pyStrip (safeStr (dgetD (safeDict state) "pending_option_group" .null)) ≠ "" ∧
      lastBotActionOf (safeDict state) = "ask_option_group") →
      pendingCoerce (pyStrip (safeStr (dgetD (safeDict state) "pending_option_group" .null)))
        (pyStrip msg) = (none, []) →
      llmCoerce (safeDict (dgetD (safeDict nlu) "slots" .null))
        (pyStrip (safeStr (dgetD (safeDict state) "pending_option_group" .null)))
        (dgetD (safeDict state) "pending_option_group_choices" .null) = none →
      directChoiceCoerce (pyStrip msg)
        (dgetD (safeDict state) "pending_option_group_choices" .null) = none →
      looksLikeNewOrder (pyStrip msg) = true →
      slotsOf (applySessionRules state nlu msg) =
        dpop (safeDict (dgetD (safeDict nlu) "slots" .null)) "option_groups") := by
  constructor
  · intro hnp
    exact slotsOf_applySessionRules_non_edu state nlu msg hdom hnp
  · intro hp hc hllm hdir hnew
    rw [slotsOf_applySessionRules_pending state nlu msg hdom hp.1 hp.2]
    rw [pendingSlotRework_abandoned _ _ _ _ _ hc hllm hdir hnew]
    simp

theorem C9_non_edu_slots_passthrough_witness :
    slotsOf (applySessionRules
      (Val.dict [("current_domain", Val.str "kiosk")])
      (Val.dict [("domain", Val.str "kiosk"),
                 ("slots", Val.dict [("item_name", Val.str "라떼")])])
      "라떼 주세요") = [("item_name", Val.str "라떼")] := by
  have h := (C9_non_edu_slots_passthrough
    (Val.dict [("current_domain", Val.str "kiosk")])
    (Val.dict [("domain", Val.str "kiosk"),
               ("slots", Val.dict [("item_name", Val.str "라떼")])])
    "라떼 주세요" (by decide)).1 (by decide)
  rw [h]
  decide

theorem dget_mergeDict_not_key (a b : Dict) (k : String)
    (h : ∀ kv ∈ b, kv.1 ≠ k) : dget (mergeDict a b) k = dget a k := by
  unfold mergeDict
  induction b generalizing a with
  | nil => simp
  | cons kv rest ih =>
      simp only [List.foldl_cons]
      by_cases hn : kv.2 = Val.null
      · rw [if_pos hn]
        exact ih a (fun kv' hkv' => h kv' (List.mem_cons_of_mem _ hkv'))
      · rw [if_neg hn]
        rw [ih (dset a kv.1 kv.2) (fun kv' hkv' => h kv' (List.mem_cons_of_mem _ hkv'))]
        exact dget_dset_ne _ _ _ _ (fun he => h kv (List.mem_cons_self _ _) he.symm)

theorem dget_mergeDict_right (a b : Dict) (k : String) (v : Val) :
    dictWF b → dget b k = some v → v ≠ Val.null → dget (mergeDict a b) k = some v := by
  unfold mergeDict
  induction b generalizing a with
  | nil =>
      intro _ hv _
      simp [dget] at hv
  | cons kv rest ih =>
      intro hwf hv hnn
      simp only [dictWF, List.map_cons, List.nodup_cons] at hwf
      simp only [List.foldl_cons]
      simp only [dget] at hv
      by_cases hk : kv.1 = k
      · rw [if_pos hk] at hv
        cases hv
        rw [if_neg hnn]
        have hrest : ∀ kv' ∈ rest, kv'.1 ≠ k := by
          intro kv' hkv' he
          exact hwf.1 (by rw [hk, ← he]; exact List.mem_map_of_mem Prod.fst hkv')
        have hpass := dget_mergeDict_not_key (dset a kv.1 kv.2) rest k hrest
        unfold mergeDict at hpass
        rw [hpass, hk]
        exact dget_dset_self _ _ _
      · rw [if_neg hk] at hv
        by_cases hn : kv.2 = Val.null
        · rw [if_pos hn]
          exact ih a hwf.2 hv hnn
        · rw [if_neg hn]
          exact ih (dset a kv.1 kv.2) hwf.2 hv hnn

theorem pendingCoerce_extra_ne (pg msg : String) :
    ∀ kv ∈ (pendingCoerce pg msg).2, kv.1 ≠ pg := by
  unfold pendingCoerce
  intro kv hkv
  split_ifs at hkv with h1 h2
  · subst h1
    cases hm : normSizeMsg msg <;> rw [hm] at hkv <;> simp at hkv
    subst hkv
    simp
  · subst h2
    cases hm : normTempMsg msg <;> rw [hm] at hkv <;> simp at hkv
    subst hkv
    simp
  · simp at hkv

/-- The option-group map of a slot dict (`_option_groups_to_dict` of its
`option_groups` entry). -/
def ogOfSlots (slots : Dict) : Dict :=
  optionGroupsToDict (dgetD slots "option_groups" .null)

theorem pendingSlotRework_some_og (prevSlots slotsIn : Dict) (pg : String)
    (choices : Val) (msg : String) (c : String)
    (hwfIn : dictWF slotsIn) (hpg : pg ≠ "")
    (hco : (if (if (pendingCoerce pg msg).1 = none ∧ (pendingCoerce pg msg).2 = []
               then llmCoerce slotsIn pg choices else (pendingCoerce pg msg).1) = none
            then directChoiceCoerce msg choices
            else (if (pendingCoerce pg msg).1 = none ∧ (pendingCoerce pg msg).2 = []
                  then llmCoerce slotsIn pg choices else (pendingCoerce pg msg).1)) = some c) :
    (pendingSlotRework prevSlots slotsIn pg choices msg).1 = true ∧
    dictWF (pendingSlotRework prevSlots slotsIn pg choices msg).2 ∧
    (∃ og, dget (pendingSlotRework prevSlots slotsIn pg choices msg).2 "option_groups" =
        some (wrapOptionGroups og) ∧ dget og pg = some (Val.str c)) := by
  unfold pendingSlotRework
  simp only [hco, hpg, reduceCtorEq, false_and, if_false, ite_false, ne_eq,
    not_false_eq_true, true_or, if_true, ite_true, decide_not]
  refine ⟨by simp, ?_, ?_⟩
  · split_ifs with hq
    · exact dictWF_dset _ _ _ (dictWF_dset _ _ _ (dictWF_dpop _ _ hwfIn))
    · exact dictWF_dset _ _ _ (dictWF_dpop _ _ hwfIn)
  · refine ⟨List.foldl (fun acc kv => dset acc kv.1 kv.2)
      (dset (dUpdate (optionGroupsToDict (dgetD prevSlots "option_groups" Val.null))
        (optionGroupsToDict (dgetD (dpop slotsIn "item_name") "option_groups" Val.null)))
        pg (Val.str c)) (pendingCoerce pg msg).2, ?_, ?_⟩
    · split_ifs with hq
      · rw [dget_dset_ne _ _ _ _ (by decide)]
        exact dget_dset_self _ _ _
      · exact dget_dset_self _ _ _
    · exact (dget_dUpdate_not_key _ _ _ (pendingCoerce_extra_ne pg msg)).trans
        (dget_dset_self _ _ _)

/-- C4 counterexample: during a pending `temperature` clarification the
oracle supplies `"hot"`, which string-matches the offered choices, yet the
normalizer uses its own heuristic coercion of the utterance (`"ice"`): the
heuristic is preferred over the oracle, contrary to the claim. -/
theorem C4_counterexample :
    normTempMsg "아이스" = some "ice" ∧
    choiceMatch (Val.str "hot") (Val.list [Val.str "hot", Val.str "ice"]) = some "hot" ∧
    dget (ogOfSlots (slotsOf (applySessionRules
      (Val.dict
        [("current_domain", Val.str "kiosk"), ("active_intent", Val.str "add_item"),
         ("pending_option_group", Val.str "temperature"),
         ("pending_option_group_choices", Val.list [Val.str "hot", Val.str "ice"]),
         ("last_bot_action", Val.str "ask_option_group"),
         ("slots", Val.dict [])])
      (Val.dict
        [("domain", Val.str "kiosk"), ("intent", Val.str "add_item"),
         ("slots", Val.dict
           [("option_groups", Val.dict
             [("value", Val.dict [("temperature", Val.str "hot")])])])])
      "아이스"))) "temperature" = some (Val.str "ice") := by decide

theorem llmCoerce_eq (slotsIn : Dict) (pg : String) (choices : Val) (cand : Val)
    (hpg : pg ≠ "")
    (hcand : dget (ogOfSlots slotsIn) pg = some cand) :
    llmCoerce slotsIn pg choices =
      (match choiceMatch cand choices with
       | some m => some m
       | none =>
           if cand ≠ Val.null ∧ pyStrip (pyStr cand) ≠ "" then some (pyStrip (pyStr cand))
           else none) := by
  unfold llmCoerce
  unfold ogOfSlots at hcand
  rw [if_pos ⟨hpg, by simp [dmem, hcand]⟩]
  have hc : dgetD (optionGroupsToDict (dgetD slotsIn "option_groups" Val.null)) pg Val.null
      = cand := by
    unfold dgetD at hcand ⊢
    rw [hcand]
    rfl
  rw [hc]

/-- C4 (amended): during a pending option-group clarification the normalizer
prefers its own heuristic coercion of the raw utterance; the oracle's value
for the pending key is consulted only when the heuristic yields neither a
pending value nor an extra option, and is then used in its choice-matched
form when it string-matches (case/whitespace-insensitive) one of the offered
choices, else as its raw trimmed string when non-empty. -/
theorem C4_pending_value_resolution (state nlu : Val) (msg : String)
    (hdom : pyStrip (safeStr (pyOr (dgetD (safeDict nlu) "domain" .null)
      (dgetD (safeDict state) "current_domain" .null))) ≠ "education")
    (hp : pyStrip (safeStr (dgetD (safeDict state) "pending_option_group" .null)) ≠ "")
    (hl : lastBotActionOf (safeDict state) = "ask_option_group")
    (hwfIn : dictWF (safeDict (dgetD (safeDict nlu) "slots" .null))) :
    (∀ c, (pendingCoerce (pyStrip (safeStr (dgetD (safeDict state) "pending_option_group" .null)))
        (pyStrip msg)).1 = some c →
      dget (ogOfSlots (slotsOf (applySessionRules state nlu msg)))
        (pyStrip (safeStr (dgetD (safeDict state) "pending_option_group" .null))) =
        some (Val.str c)) ∧
    (pendingCoerce (pyStrip (safeStr (dgetD (safeDict state) "pending_option_group" .null)))
        (pyStrip msg) = (none, []) →
      ∀ cand, dget (ogOfSlots (safeDict (dgetD (safeDict nlu) "slots" .null)))
          (pyStrip (safeStr (dgetD (safeDict state) "pending_option_group" .null))) = some cand →
        ((∀ mtc, choiceMatch cand (dgetD (safeDict state) "pending_option_group_choices" .null)
            = some mtc →
          dget (ogOfSlots (slotsOf (applySessionRules state nlu msg)))
            (pyStrip (safeStr (dgetD (safeDict state) "pending_option_group" .null))) =
            some (Val.str mtc)) ∧
         (choiceMatch cand (dgetD (safeDict state) "pending_option_group_choices" .null) = none →
          cand ≠ Val.null → pyStrip (pyStr cand) ≠ "" →
          dget (ogOfSlots (slotsOf (applySessionRules state nlu msg)))
            (pyStrip (safeStr (dgetD (safeDict state) "pending_option_group" .null))) =
            some (Val.str (pyStrip (pyStr cand)))))) := by
  have core : ∀ c,
      (if (if (pendingCoerce (pyStrip (safeStr (dgetD (safeDict state) "pending_option_group" .null)))
              (pyStrip msg)).1 = none ∧
            (pendingCoerce (pyStrip (safeStr (dgetD (safeDict state) "pending_option_group" .null)))
              (pyStrip msg)).2 = []
          then llmCoerce (safeDict (dgetD (safeDict nlu) "slots" .null))
            (pyStrip (safeStr (dgetD (safeDict state) "pending_option_group" .null)))
            (dgetD (safeDict state) "pending_option_group_choices" .null)
          else (pendingCoerce (pyStrip (safeStr (dgetD (safeDict state) "pending_option_group" .null)))
            (pyStrip msg)).1) = none
        then directChoiceCoerce (pyStrip msg)
          (dgetD (safeDict state) "pending_option_group_choices" .null)
        else (if (pendingCoerce (pyStrip (safeStr (dgetD (safeDict state) "pending_option_group" .null)))
              (pyStrip msg)).1 = none ∧
            (pendingCoerce (pyStrip (safeStr (dgetD (safeDict state) "pending_option_group" .null)))
              (pyStrip msg)).2 = []
          then llmCoerce (safeDict (dgetD (safeDict nlu) "slots" .null))
            (pyStrip (safeStr (dgetD (safeDict state) "pending_option_group" .null)))
            (dgetD (safeDict state) "pending_option_group_choices" .null)
          else (pendingCoerce (pyStrip (safeStr (dgetD (safeDict state) "pending_option_group" .null)))
            (pyStrip msg)).1)) = some c →
      dget (ogOfSlots (slotsOf (applySessionRules state nlu msg)))
        (pyStrip (safeStr (dgetD (safeDict state) "pending_option_group" .null))) =
        some (Val.str c) := by
    intro c hco
    rw [slotsOf_applySessionRules_pending state nlu msg hdom hp hl]
    obtain ⟨h1, h2, og, hog, hogpg⟩ := pendingSlotRework_some_og
      (safeDict (dgetD (safeDict state) "slots" .null))
      (safeDict (dgetD (safeDict nlu) "slots" .null))
      (pyStrip (safeStr (dgetD (safeDict state) "pending_option_group" .null)))
      (dgetD (safeDict state) "pending_option_group_choices" .null)
      (pyStrip msg) c hwfIn hp hco
    rw [if_pos (by simp [h1])]
    unfold ogOfSlots
    have hmg := dget_mergeDict_right (safeDict (dgetD (safeDict state) "slots" .null)) _
      "option_groups" (wrapOptionGroups og) h2 hog (by simp [wrapOptionGroups])
    rw [dgetD, hmg, Option.getD]
    simpa [optionGroupsToDict, wrapOptionGroups, dmem, dget, dgetD] using hogpg
  constructor
  · intro c hcoe
    apply core c
    rw [hcoe]
    simp
  · intro hce cand hcand
    have hllm : ∀ r, llmCoerce (safeDict (dgetD (safeDict nlu) "slots" .null))
        (pyStrip (safeStr (dgetD (safeDict state) "pending_option_group" .null)))
        (dgetD (safeDict state) "pending_option_group_choices" .null) = r →
        (if (pendingCoerce (pyStrip (safeStr (dgetD (safeDict state) "pending_option_group" .null)))
              (pyStrip msg)).1 = none ∧
            (pendingCoerce (pyStrip (safeStr (dgetD (safeDict state) "pending_option_group" .null)))
              (pyStrip msg)).2 = []
          then llmCoerce (safeDict (dgetD (safeDict nlu) "slots" .null))
            (pyStrip (safeStr (dgetD (safeDict state) "pending_option_group" .null)))
            (dgetD (safeDict state) "pending_option_group_choices" .null)
          else (pendingCoerce (pyStrip (safeStr (dgetD (safeDict state) "pending_option_group" .null)))
            (pyStrip msg)).1) = r := by
      intro r hr
      rw [hce]
      simpa using hr
    constructor
    · intro mtc hm
      apply core mtc
      have hl2 := llmCoerce_eq (safeDict (dgetD (safeDict nlu) "slots" .null))
        (pyStrip (safeStr (dgetD (safeDict state) "pending_option_group" .null)))
        (dgetD (safeDict state) "pending_option_group_choices" .null) cand hp hcand
      rw [hm] at hl2
      rw [hllm _ hl2]
      simp
    · intro hcm hnn hne
      apply core (pyStrip (pyStr cand))
      have hl2 := llmCoerce_eq (safeDict (dgetD (safeDict nlu) "slots" .null))
        (pyStrip (safeStr (dgetD (safeDict state) "pending_option_group" .null)))
        (dgetD (safeDict state) "pending_option_group_choices" .null) cand hp hcand
      rw [hcm] at hl2
      rw [if_pos ⟨hnn, hne⟩] at hl2
      rw [hllm _ hl2]
      simp

theorem C4_pending_value_resolution_witness :
    dget (ogOfSlots (slotsOf (applySessionRules
      (Val.dict
        [("current_domain", Val.str "kiosk"), ("active_intent", Val.str "add_item"),
         ("pending_option_group", Val.str "temperature"),
         ("pending_option_group_choices", Val.list [Val.str "hot", Val.str "ice"]),
         ("last_bot_action", Val.str "ask_option_group"),
         ("slots", Val.dict [])])
      (Val.dict
        [("domain", Val.str "kiosk"), ("intent", Val.str "add_item"),
         ("slots", Val.dict
           [("option_groups", Val.dict
             [("value", Val.dict [("temperature", Val.str "hot")])])])])
      "아이스")))
      (pyStrip (safeStr (dgetD (safeDict (Val.dict
        [("current_domain", Val.str "kiosk"), ("active_intent", Val.str "add_item"),
         ("pending_option_group", Val.str "temperature"),
         ("pending_option_group_choices", Val.list [Val.str "hot", Val.str "ice"]),
         ("last_bot_action", Val.str "ask_option_group"),
         ("slots", Val.dict [])])) "pending_option_group" Val.null))) =
      some (Val.str "ice") :=
  (C4_pending_value_resolution
    (Val.dict
      [("current_domain", Val.str "kiosk"), ("active_intent", Val.str "add_item"),
       ("pending_option_group", Val.str "temperature"),
       ("pending_option_group_choices", Val.list [Val.str "hot", Val.str "ice"]),
       ("last_bot_action", Val.str "ask_option_group"),
       ("slots", Val.dict [])])
    (Val.dict
      [("domain", Val.str "kiosk"), ("intent", Val.str "add_item"),
       ("slots", Val.dict
         [("option_groups", Val.dict
           [("value", Val.dict [("temperature", Val.str "hot")])])])])
    "아이스" (by decide) (by decide) (by decide) (by decide)).1 "ice" (by decide)

/-- C2: the heuristic follow-up score is the sum of the five independent
bonuses (+0.65 clarification request, +0.20 short utterance, +0.25 leading
continuation marker, +0.20 referential pronoun, +0.10 continuation marker
plus interrogative form) capped at 1.0 (all in hundredths here); the turn is
classified a follow-up iff the score reaches the 0.55 threshold; and a
preceding clarification request (`ask_slot` / `ask_option_group`) alone
forces the follow-up classification regardless of all other signals. -/
theorem C2_followup_score_spec (userMessage : String) (st : Dict) :
    (heuristicFollowupScore userMessage st =
      min ((if lastBotActionOf st = "ask_slot" ∨ lastBotActionOf st = "ask_option_group"
              then 65 else 0) +
           (if (stripChars userMessage.toList).length ≤ 10 then 20 else 0) +
           (if followupPrefixHit (stripChars userMessage.toList) then 25 else 0) +
           (if referentialHit (stripChars userMessage.toList) then 20 else 0) +
           (if questionLike (stripChars userMessage.toList) ∧
               followupPrefixHit (stripChars userMessage.toList) then 10 else 0)) 100) ∧
    (isFollowup userMessage st = true ↔ 55 ≤ heuristicFollowupScore userMessage st) ∧
    (lastBotActionOf st = "ask_slot" ∨ lastBotActionOf st = "ask_option_group" →
      isFollowup userMessage st = true) := by
  refine ⟨?_, ?_, ?_⟩
  · unfold heuristicFollowupScore
    simp only [Nat.min_def]
    split_ifs <;> omega
  · simp [isFollowup, ge_iff_le]
  · intro h
    simp only [isFollowup, ge_iff_le, decide_eq_true_eq]
    unfold heuristicFollowupScore
    simp only [if_pos h]
    split_ifs <;> omega

theorem C2_followup_score_spec_witness :
    isFollowup "아이스로" [("last_bot_action", Val.str "ask_option_group")] = true :=
  (C2_followup_score_spec "아이스로" [("last_bot_action", Val.str "ask_option_group")]).2.2
    (by decide)

theorem dget_dset_str (d : Dict) (k k' : String) (v : Val) :
    dget (dset d k v) k' = if k' = k then some v else dget d k' := by
  by_cases h : k' = k
  · rw [if_pos h, h]
    exact dget_dset_self _ _ _
  · rw [if_neg h]
    exact dget_dset_ne _ _ _ _ h

/-- C5 counterexample: `_merge_dict` only skips `None`; an incoming **empty
string** value (empty per `_has_nonempty`) does replace the prior non-empty
value, contrary to the claim. -/
theorem C5_counterexample :
    hasNonempty (Val.str "라떼") = true ∧
    hasNonempty (Val.str "") = false ∧
    dget (mergeDict [("item_name", Val.str "라떼")] [("item_name", Val.str "")]) "item_name"
      = some (Val.str "") := by decide

/-- C5 (amended): merging an incoming slot whose value is null (`None`) or
absent never erases or replaces the prior value for that key; empty strings
and empty collections are ordinary values and do overwrite. -/
theorem C5_null_never_overwrites (a b : Dict) (k : String) :
    (∀ v, (k, v) ∈ b → v = Val.null) → dget (mergeDict a b) k = dget a k := by
  unfold mergeDict
  induction b generalizing a with
  | nil =>
      intro _
      simp
  | cons kv rest ih =>
      intro hb
      simp only [List.foldl_cons]
      by_cases h : kv.2 = Val.null
      · rw [if_pos h]
        exact ih a (fun v hv => hb v (List.mem_cons_of_mem _ hv))
      · rw [if_neg h]
        have hk : kv.1 ≠ k := by
          intro he
          exact h (hb kv.2 (by rw [← he]; exact List.mem_cons_self _ _))
        rw [ih (dset a kv.1 kv.2) (fun v hv => hb v (List.mem_cons_of_mem _ hv))]
        exact dget_dset_ne _ _ _ _ (fun he => hk he.symm)

theorem C5_null_never_overwrites_witness :
    dget (mergeDict [("topic", Val.str "수학")] [("topic", Val.null)]) "topic"
      = some (Val.str "수학") := by
  rw [C5_null_never_overwrites [("topic", Val.str "수학")] [("topic", Val.null)] "topic"
    (fun v hv => congrArg Prod.snd (List.mem_singleton.mp hv))]
  decide

/-- The mutual-exclusion invariant of the front seats: heater and
ventilation are never both `"on"` for the same seat. -/
def seatExclusive (st : Dict) : Prop :=
  ¬ (dget st "seat_heater_driver" = some (.str "on") ∧
     dget st "seat_ventilation_driver" = some (.str "on")) ∧
  ¬ (dget st "seat_heater_passenger" = some (.str "on") ∧
     dget st "seat_ventilation_passenger" = some (.str "on"))

instance (st : Dict) : Decidable (seatExclusive st) := by
  unfold seatExclusive
  infer_instance

theorem seatExclusive_dset_other (st : Dict) (k : String) (v : Val)
    (hk : ¬ (k = "seat_heater_driver" ∨ k = "seat_ventilation_driver" ∨
             k = "seat_heater_passenger" ∨ k = "seat_ventilation_passenger"))
    (h : seatExclusive st) : seatExclusive (dset st k v) := by
  unfold seatExclusive at h ⊢
  push_neg at hk
  rw [dget_dset_ne _ _ _ _ (Ne.symm hk.1), dget_dset_ne _ _ _ _ (Ne.symm hk.2.1),
      dget_dset_ne _ _ _ _ (Ne.symm hk.2.2.1), dget_dset_ne _ _ _ _ (Ne.symm hk.2.2.2)]
  exact h

set_option maxHeartbeats 8000000 in
/-- C10: the vehicle-status forward simulation preserves, for the driver and
passenger seats, the invariant that heater and ventilation are never both on;
turning a front seat's heater on forces that seat's ventilation to `"off"`,
and turning a front seat's ventilation on forces that seat's heater to
`"off"`, for every starting status satisfying the invariant and every
`control_hardware` command. -/
theorem C10_seat_heater_vent_exclusive (status params : Dict) (hinv : seatExclusive status) :
    seatExclusive (updateVehicleStatusSimulation status "control_hardware" params) ∧
    (pyStrOr (dgetD params "part" .null) = "seat_heater" →
      pyStrOr (dgetD params "action" .null) = "on" →
      ((pyStrOr (dgetD params "location_detail" .null) = "driver" ∨
        pyStrOr (dgetD params "location_detail" .null) = "front" ∨
        pyStrOr (dgetD params "location_detail" .null) = "") →
        dget (updateVehicleStatusSimulation status "control_hardware" params)
          "seat_ventilation_driver" = some (.str "off")) ∧
      ((pyStrOr (dgetD params "location_detail" .null) = "passenger" ∨
        pyStrOr (dgetD params "location_detail" .null) = "front" ∨
        pyStrOr (dgetD params "location_detail" .null) = "") →
        dget (updateVehicleStatusSimulation status "control_hardware" params)
          "seat_ventilation_passenger" = some (.str "off"))) ∧
    (pyStrOr (dgetD params "part" .null) = "seat_ventilation" →
      pyStrOr (dgetD params "action" .null) = "on" →
      ((pyStrOr (dgetD params "location_detail" .null) = "driver" ∨
        pyStrOr (dgetD params "location_detail" .null) = "front" ∨
        pyStrOr (dgetD params "location_detail" .null) = "") →
        dget (updateVehicleStatusSimulation status "control_hardware" params)
          "seat_heater_driver" = some (.str "off")) ∧
      ((pyStrOr (dgetD params "location_detail" .null) = "passenger" ∨
        pyStrOr (dgetD params "location_detail" .null) = "front" ∨
        pyStrOr (dgetD params "location_detail" .null) = "") →
        dget (updateVehicleStatusSimulation status "control_hardware" params)
          "seat_heater_passenger" = some (.str "off"))) := by
  unfold updateVehicleStatusSimulation
  simp only [reduceIte]
  rcases hma : actMap (pyStrOr (dgetD params "action" .null)) with _ | v
  · refine ⟨hinv, ?_, ?_⟩ <;>
      (intro _ hact
       rw [hact] at hma
       simp [actMap] at hma)
  · dsimp only
    have hvon : pyStrOr (dgetD params "action" .null) = "on" → v = "on" := by
      intro hact
      rw [hact] at hma
      simp [actMap] at hma
      exact hma.symm
    clear hma
    refine ⟨?_, ?_, ?_⟩
    · -- invariant preservation: walk the part dispatch chain
      clear hvon
      by_cases h1 : pyStrOr (dgetD params "part" Val.null) = "sunroof"
      · rw [if_pos h1]
        exact seatExclusive_dset_other _ _ _ (by decide) hinv
      rw [if_neg h1]
      by_cases h2 : pyStrOr (dgetD params "part" Val.null) = "charge_port"
      · rw [if_pos h2]
        exact seatExclusive_dset_other _ _ _ (by decide) hinv
      rw [if_neg h2]
      by_cases h3 : pyStrOr (dgetD params "part" Val.null) = "trunk"
      · rw [if_pos h3]
        exact seatExclusive_dset_other _ _ _ (by decide) hinv
      rw [if_neg h3]
      by_cases h4 : pyStrOr (dgetD params "part" Val.null) = "frunk"
      · rw [if_pos h4]
        exact seatExclusive_dset_other _ _ _ (by decide) hinv
      rw [if_neg h4]
      by_cases h5 : pyStrOr (dgetD params "part" Val.null) = "door_lock"
      · rw [if_pos h5]
        exact seatExclusive_dset_other _ _ _ (by decide) hinv
      rw [if_neg h5]
      by_cases h6 : pyStrOr (dgetD params "part" Val.null) = "window"
      · rw [if_pos h6]
        split_ifs <;>
          simp_all only [seatExclusive, dget_dset_str, reduceIte, Option.some.injEq,
            Val.str.injEq, String.reduceEq, not_and, not_false_eq_true, and_true,
            true_and, and_false, false_and, imp_false, and_self, implies_true]
      rw [if_neg h6]
      by_cases h7 : pyStrOr (dgetD params "part" Val.null) = "seat_heater"
      · rw [if_pos h7]
        split_ifs <;>
          first
            | exact hinv
            | simp_all only [seatExclusive, dget_dset_str, reduceIte, Option.some.injEq,
                Val.str.injEq, String.reduceEq, not_and, not_false_eq_true, and_true,
                true_and, and_false, false_and, imp_false, and_self, implies_true]
      rw [if_neg h7]
      by_cases h8 : pyStrOr (dgetD params "part" Val.null) = "seat_ventilation"
      · rw [if_pos h8]
        split_ifs <;>
          first
            | exact hinv
            | simp_all only [seatExclusive, dget_dset_str, reduceIte, Option.some.injEq,
                Val.str.injEq, String.reduceEq, not_and, not_false_eq_true, and_true,
                true_and, and_false, false_and, imp_false, and_self, implies_true]
      rw [if_neg h8]
      by_cases h9 : pyStrOr (dgetD params "part" Val.null) = "steering_wheel"
      · rw [if_pos h9]
        exact seatExclusive_dset_other _ _ _ (by decide) hinv
      rw [if_neg h9]
      by_cases h10 : pyStrOr (dgetD params "part" Val.null) = "light"
      · rw [if_pos h10]
        exact seatExclusive_dset_other _ _ _ (by decide) hinv
      rw [if_neg h10]
      by_cases h11 : pyStrOr (dgetD params "part" Val.null) = "wiper"
      · rw [if_pos h11]
        exact seatExclusive_dset_other _ _ _ (by decide) hinv
      rw [if_neg h11]
      exact hinv
    · intro hpart hact
      have hv := hvon hact
      subst hv
      constructor <;>
        (intro hdl
         rcases hdl with h | h | h <;>
           (rw [hpart, h]
            simp only [reduceIte]
            simp [dget_dset_str]))
    · intro hpart hact
      have hv := hvon hact
      subst hv
      constructor <;>
        (intro hdl
         rcases hdl with h | h | h <;>
           (rw [hpart, h]
            simp only [reduceIte]
            simp [dget_dset_str]))

theorem C10_seat_heater_vent_exclusive_witness :
    seatExclusive (updateVehicleStatusSimulation
      [("seat_ventilation_driver", Val.str "on")] "control_hardware"
      [("part", Val.str "seat_heater"), ("action", Val.str "on"),
       ("location_detail", Val.str "driver")]) ∧
    dget (updateVehicleStatusSimulation
      [("seat_ventilation_driver", Val.str "on")] "control_hardware"
      [("part", Val.str "seat_heater"), ("action", Val.str "on"),
       ("location_detail", Val.str "driver")]) "seat_ventilation_driver"
      = some (.str "off") := by
  have h := C10_seat_heater_vent_exclusive
    [("seat_ventilation_driver", Val.str "on")]
    [("part", Val.str "seat_heater"), ("action", Val.str "on"),
     ("location_detail", Val.str "driver")]
    (by decide)
  exact ⟨h.1, (h.2.1 (by decide) (by decide)).1 (by decide)⟩

theorem patch_keys_ne (patch : Dict) (k : String)
    (hk : k ∉ patch.map Prod.fst) : ∀ kv ∈ patch, kv.1 ≠ k := by
  intro kv hkv he
  exact hk (he ▸ List.mem_map_of_mem Prod.fst hkv)

theorem ok_bind {α β : Type} (a : α) (f : α → Except Unit β) :
    (Except.ok a >>= f) = f a := rfl

theorem error_bind {α β : Type} (f : α → Except Unit β) :
    ((Except.error () : Except Unit α) >>= f) = .error () := rfl

theorem pure_eq_ok {α : Type} (a : α) : (pure a : Except Unit α) = .ok a := rfl

theorem except_bind_ok {α β : Type} (e : Except Unit α) (f : α → Except Unit β) (b : β)
    (h : (e >>= f) = .ok b) : ∃ x, e = .ok x ∧ f x = .ok b := by
  cases e with
  | error u => exact Except.noConfusion h
  | ok x => exact ⟨x, rfl, h⟩

theorem drivingSuccess_turn_index (o : Oracles) (domain intent : String)
    (slots meta st : Dict) (tg em : String) (n : Int)
    (hst : dget st "turn_index" = some (.int n)) :
    dget (drivingSuccess o domain intent slots meta st tg em).2 "turn_index"
      = some (.int (n + 1)) := by
  simp only [drivingSuccess]
  exact dget_mergeState_turn_index _ _ _ hst (patch_keys_ne _ _ (by simp))

theorem drivingControl_turn_index (o : Oracles) (domain intent : String)
    (slots meta st : Dict) (n : Int)
    (hst : dget st "turn_index" = some (.int n)) :
    dget (drivingControl o domain intent slots meta st).2 "turn_index"
      = some (.int (n + 1)) := by
  simp only [drivingControl]
  split_ifs <;>
    exact dget_mergeState_turn_index _ _ _ hst (patch_keys_ne _ _ (by simp))

theorem validateDriving_turn_index (o : Oracles) (domain intent : String)
    (slots meta st : Dict) (n : Int)
    (hst : dget st "turn_index" = some (.int n)) :
    dget (validateDriving o domain intent slots meta st).2 "turn_index"
      = some (.int (n + 1)) := by
  simp only [validateDriving]
  split_ifs <;> first
    | exact dget_mergeState_turn_index _ _ _ hst (patch_keys_ne _ _ (by simp))
    | exact drivingControl_turn_index _ _ _ _ _ _ n hst

theorem validateKioskAddItem_turn_index (catalog : Catalog) (domain intent : String)
    (slots meta st a st' : Dict) (n : Int)
    (hst : dget st "turn_index" = some (.int n))
    (hok : validateKioskAddItem catalog domain intent slots meta st = .ok (a, st')) :
    dget st' "turn_index" = some (.int (n + 1)) := by
  simp only [validateKioskAddItem] at hok
  by_cases h1 : (¬ pyTruthy (dgetD meta "store_id" Val.null) ∨
      ¬ pyTruthy (dgetD meta "kiosk_type" Val.null) ∨
      ¬ pyTruthy (slotValueOf slots "item_name"))
  · rw [if_pos h1] at hok
    simp only [Except.ok.injEq, Prod.mk.injEq] at hok
    exact hok.2 ▸ dget_mergeState_turn_index _ _ _ hst (patch_keys_ne _ _ (by simp))
  · rw [if_neg h1] at hok
    obtain ⟨item0, hcat, hok⟩ := except_bind_ok _ _ _ hok
    cases item0 with
    | some it =>
        simp only [pure_eq_ok, ok_bind] at hok
        obtain ⟨rgs, hreq, hok⟩ := except_bind_ok _ _ _ hok
        rcases hmiss : findMissingRequiredOptionGroup rgs (Val.dict (kioskOptionGroups slots))
          with _ | g <;> simp only [hmiss, pure_eq_ok, Except.ok.injEq, Prod.mk.injEq] at hok <;>
          exact hok.2 ▸ dget_mergeState_turn_index _ _ _ hst (patch_keys_ne _ _ (by simp))
    | none =>
        obtain ⟨r, hlf, hok⟩ := except_bind_ok _ _ _ hok
        cases r with
        | none =>
            simp only [pure_eq_ok, ok_bind, Except.ok.injEq, Prod.mk.injEq] at hok
            exact hok.2 ▸ dget_mergeState_turn_index _ _ _ hst (patch_keys_ne _ _ (by simp))
        | some pr =>
            obtain ⟨it2, cand⟩ := pr
            simp only [pure_eq_ok, ok_bind] at hok
            obtain ⟨rgs, hreq, hok⟩ := except_bind_ok _ _ _ hok
            rcases hmiss : findMissingRequiredOptionGroup rgs (Val.dict (kioskOptionGroups slots))
              with _ | g <;> simp only [hmiss, pure_eq_ok, Except.ok.injEq, Prod.mk.injEq] at hok <;>
              exact hok.2 ▸ dget_mergeState_turn_index _ _ _ hst (patch_keys_ne _ _ (by simp))

theorem validateAndBuildAction_turn_index (o : Oracles) (catalog : Catalog)
    (domain intent : String) (slots meta st a st' : Dict) (n : Int)
    (hst : dget st "turn_index" = some (.int n))
    (hok : validateAndBuildAction o catalog domain intent slots meta st = .ok (a, st')) :
    dget st' "turn_index" = some (.int (n + 1)) := by
  unfold validateAndBuildAction at hok
  by_cases h1 : domain = "driving"
  · rw [if_pos h1] at hok
    injection hok with h
    have h2' : (validateDriving o domain intent slots meta st).2 = st' := by rw [h]
    rw [← h2']
    exact validateDriving_turn_index o domain intent slots meta st n hst
  · rw [if_neg h1] at hok
    by_cases h2 : (domain = "kiosk" ∧ intent = "add_item")
    · rw [if_pos h2] at hok
      exact validateKioskAddItem_turn_index catalog domain intent slots meta st a st' n hst hok
    · rw [if_neg h2] at hok
      by_cases h3 : domain = "education"
      · rw [if_pos h3] at hok
        injection hok with h
        have h2' : (validateEducation domain intent slots meta st).2 = st' := congrArg Prod.snd h
        rw [← h2']
        exact dget_mergeState_turn_index _ _ _ hst (patch_keys_ne _ _ (by simp))
      · rw [if_neg h3] at hok
        injection hok with h
        have h2' : (validateFallback domain intent slots st).2 = st' := congrArg Prod.snd h
        rw [← h2']
        exact dget_mergeState_turn_index _ _ _ hst (patch_keys_ne _ _ (by simp))

theorem runTurns_turn_index (ts : List TurnInput) (st st' : Dict) (n : Int)
    (hst : dget st "turn_index" = some (.int n))
    (h : runTurns st ts = some st') :
    dget st' "turn_index" = some (.int (n + ts.length)) := by
  induction ts generalizing st n with
  | nil =>
      simp only [runTurns, Option.some.injEq] at h
      subst h
      simpa using hst
  | cons t rest ih =>
      simp only [runTurns] at h
      cases hv : validateAndBuildAction t.oracles t.catalog t.domain t.intent t.slots t.meta st with
      | error e =>
          rw [hv] at h
          exact absurd h (by simp)
      | ok p =>
          rw [hv] at h
          obtain ⟨a1, st1⟩ := p
          have hstep := validateAndBuildAction_turn_index t.oracles t.catalog t.domain t.intent
            t.slots t.meta st a1 st1 n hst hv
          have hres := ih st1 (n + 1) hstep h
          rw [List.length_cons]
          rw [show (n + ((rest.length + 1 : Nat) : Int)) = (n + 1) + (rest.length : Int) by
            push_cast; ring]
          exact hres

/-- C1: a freshly created session state has `turn_index` 0; every call of the
validator that returns a result increments `turn_index` by exactly 1,
whichever branch it took; hence after any sequence of completed turns on a
fresh state the persisted `turn_index` equals the number of turns, so the
observed values across completed turns are the strictly increasing integers
1, 2, 3, …. -/
theorem C1_turn_index_monotone :
    (∀ now : Rat, dget (newState now) "turn_index" = some (.int 0)) ∧
    (∀ (o : Oracles) (catalog : Catalog) (domain intent : String)
       (slots meta st a st' : Dict) (n : Int),
       dget st "turn_index" = some (.int n) →
       validateAndBuildAction o catalog domain intent slots meta st = .ok (a, st') →
       dget st' "turn_index" = some (.int (n + 1))) ∧
    (∀ (now : Rat) (ts : List TurnInput) (st' : Dict),
       runTurns (newState now) ts = some st' →
       dget st' "turn_index" = some (.int ts.length)) := by
  refine ⟨fun now => rfl, ?_, ?_⟩
  · intro o catalog domain intent slots meta st a st' n hst hok
    exact validateAndBuildAction_turn_index o catalog domain intent slots meta st a st' n hst hok
  · intro now ts st' h
    have hres := runTurns_turn_index ts (newState now) st' 0 rfl h
    simpa using hres

/-- Witness for C1 at concrete inputs: the fresh state, one fallback-domain
turn on a state with `turn_index` 0, and two chained turns on a fresh state. -/
theorem C1_turn_index_monotone_witness :
    dget (newState 1) "turn_index" = some (.int 0) ∧
    dget (validateFallback "smalltalk" "chat" [] [("turn_index", Val.int 0)]).2 "turn_index"
      = some (.int 1) ∧
    dget ((runTurns (newState 1)
        [⟨⟨none, [], none⟩, fun _ _ _ => .ok none, "smalltalk", "chat", [], []⟩,
         ⟨⟨none, [], none⟩, fun _ _ _ => .ok none, "smalltalk", "chat", [], []⟩]).getD [])
      "turn_index" = some (.int 2) :=
  ⟨C1_turn_index_monotone.1 1,
   C1_turn_index_monotone.2.1 ⟨none, [], none⟩ (fun _ _ _ => .ok none) "smalltalk" "chat"
     [] [] [("turn_index", Val.int 0)]
     (validateFallback "smalltalk" "chat" [] [("turn_index", Val.int 0)]).1
     (validateFallback "smalltalk" "chat" [] [("turn_index", Val.int 0)]).2 0 rfl rfl,
   C1_turn_index_monotone.2.2 1
     [⟨⟨none, [], none⟩, fun _ _ _ => .ok none, "smalltalk", "chat", [], []⟩,
      ⟨⟨none, [], none⟩, fun _ _ _ => .ok none, "smalltalk", "chat", [], []⟩] _ rfl⟩

theorem lookupFirst_none (catalog : Catalog) (sid kt : Val) (cands : List String)
    (h : ∀ c ∈ cands, catalog sid kt (.str c) = .ok none) :
    lookupFirst catalog sid kt cands = .ok none := by
  induction cands with
  | nil => rfl
  | cons c rest ih =>
      simp only [lookupFirst]
      rw [h c (List.mem_cons_self c rest)]
      simp only [ok_bind]
      exact ih (fun c' hc' => h c' (List.mem_cons_of_mem c hc'))

theorem recoverItemNameCandidates_length_le (itemName : Val) (og : Dict) :
    (recoverItemNameCandidates itemName og).length ≤ 3 := by
  cases itemName
  case str nm =>
      simp only [recoverItemNameCandidates]
      split_ifs <;> first
        | exact le_trans (List.length_filter_le _ _) (by simp)
        | simp
  all_goals simp [recoverItemNameCandidates]

/-- C7: for kiosk `add_item` with store, kiosk type and item name present,
when the catalog misses on the item name and on every recovery candidate
(the candidates are obtained by stripping modifier/politeness noise and
temperature/size words, and number at most 3), the validator returns the
`menu_not_found` answer action, and the new state is the prior state patched
only with `debug_last_reason` (and the turn counter): every other key —
`slots` in particular — is unchanged. -/
theorem C7_menu_not_found_recovery (catalog : Catalog) (domain intent : String)
    (slots meta st : Dict)
    (h1 : pyTruthy (dgetD meta "store_id" Val.null))
    (h2 : pyTruthy (dgetD meta "kiosk_type" Val.null))
    (h3 : pyTruthy (slotValueOf slots "item_name"))
    (hmain : catalog (dgetD meta "store_id" Val.null) (dgetD meta "kiosk_type" Val.null)
       (slotValueOf slots "item_name") = .ok none)
    (hcands : ∀ c ∈ recoverItemNameCandidates (slotValueOf slots "item_name")
        (kioskOptionGroups slots),
       catalog (dgetD meta "store_id" Val.null) (dgetD meta "kiosk_type" Val.null) (.str c)
         = .ok none) :
    validateKioskAddItem catalog domain intent slots meta st =
      .ok (notFoundAction domain intent (slotValueOf slots "item_name"),
           mergeState st [("debug_last_reason", .str "menu_not_found")]) ∧
    actionTypeOf (notFoundAction domain intent (slotValueOf slots "item_name")) = .str "answer" ∧
    (∀ k, k ≠ "turn_index" → k ≠ "debug_last_reason" →
       dget (mergeState st [("debug_last_reason", .str "menu_not_found")]) k = dget st k) ∧
    (recoverItemNameCandidates (slotValueOf slots "item_name")
        (kioskOptionGroups slots)).length ≤ 3 := by
  refine ⟨?_, rfl, ?_, recoverItemNameCandidates_length_le _ _⟩
  · simp only [validateKioskAddItem]
    rw [if_neg (by push_neg; exact ⟨h1, h2, h3⟩)]
    rw [hmain]
    simp only [ok_bind]
    rw [lookupFirst_none _ _ _ _ hcands]
    simp only [ok_bind, pure_eq_ok]
  · intro k hk1 hk2
    exact dget_mergeState_other st _ k hk1 (patch_keys_ne _ _ (by simpa using hk2))

/-- Witness for C7 at a concrete input: a one-item slot map, a catalog that
misses on every name. -/
theorem C7_menu_not_found_recovery_witness :
    validateKioskAddItem (fun _ _ _ => .ok none) "kiosk" "add_item"
        [("item_name", Val.dict [("value", Val.str "아메리카노"), ("confidence", Val.rat 1)])]
        [("store_id", Val.str "s1"), ("kiosk_type", Val.str "cafe")]
        [("turn_index", Val.int 0)] =
      .ok (notFoundAction "kiosk" "add_item" (Val.str "아메리카노"),
           mergeState [("turn_index", Val.int 0)]
             [("debug_last_reason", Val.str "menu_not_found")]) ∧
    dget (mergeState [("turn_index", Val.int 0)]
        [("debug_last_reason", Val.str "menu_not_found")]) "slots"
      = dget [("turn_index", Val.int 0)] "slots" ∧
    (recoverItemNameCandidates (Val.str "아메리카노") (kioskOptionGroups
        [("item_name", Val.dict [("value", Val.str "아메리카노"),
          ("confidence", Val.rat 1)])])).length ≤ 3 := by
  have h := C7_menu_not_found_recovery (fun _ _ _ => .ok none) "kiosk" "add_item"
    [("item_name", Val.dict [("value", Val.str "아메리카노"), ("confidence", Val.rat 1)])]
    [("store_id", Val.str "s1"), ("kiosk_type", Val.str "cafe")]
    [("turn_index", Val.int 0)]
    (by decide) (by decide) (by decide) rfl (fun c hc => rfl)
  exact ⟨h.1, h.2.2.1 "slots" (by decide) (by decide), h.2.2.2⟩

theorem kioskAddToCart_markers (catalog : Catalog) (domain intent : String)
    (slots meta st a st' : Dict)
    (hok : validateKioskAddItem catalog domain intent slots meta st = .ok (a, st'))
    (hat : actionTypeOf a = .str "add_to_cart") :
    dget st' "pending_option_group" = some .null ∧
    dget st' "pending_option_group_choices" = some .null ∧
    dget st' "last_bot_action" = some (.str "add_to_cart") := by
  simp only [validateKioskAddItem] at hok
  by_cases h1 : (¬ pyTruthy (dgetD meta "store_id" Val.null) ∨
      ¬ pyTruthy (dgetD meta "kiosk_type" Val.null) ∨
      ¬ pyTruthy (slotValueOf slots "item_name"))
  · rw [if_pos h1] at hok
    simp only [Except.ok.injEq, Prod.mk.injEq] at hok
    rw [← hok.1] at hat
    simp [actionTypeOf, dgetD, dget, safeDict] at hat
  · rw [if_neg h1] at hok
    obtain ⟨item0, hcat, hok⟩ := except_bind_ok _ _ _ hok
    cases item0 with
    | some it =>
        simp only [pure_eq_ok, ok_bind] at hok
        obtain ⟨rgs, hreq, hok⟩ := except_bind_ok _ _ _ hok
        rcases hmiss : findMissingRequiredOptionGroup rgs (Val.dict (kioskOptionGroups slots))
          with _ | g
        · simp only [hmiss, pure_eq_ok, Except.ok.injEq, Prod.mk.injEq] at hok
          refine ⟨?_, ?_, ?_⟩ <;>
            exact hok.2 ▸ dget_mergeState_patch st _ _ _ (by decide)
              (by simp [dUpdate, List.foldl_cons, List.foldl_nil, dget_dset_self,
                        dget_dset_ne, ne_eq, String.reduceEq])
        · simp only [hmiss, pure_eq_ok, Except.ok.injEq, Prod.mk.injEq] at hok
          rw [← hok.1] at hat
          simp [actionTypeOf, dgetD, dget, safeDict] at hat
    | none =>
        obtain ⟨r, hlf, hok⟩ := except_bind_ok _ _ _ hok
        cases r with
        | none =>
            simp only [pure_eq_ok, ok_bind, Except.ok.injEq, Prod.mk.injEq] at hok
            rw [← hok.1] at hat
            simp [actionTypeOf, dgetD, dget, safeDict, notFoundAction] at hat
        | some pr =>
            obtain ⟨it2, cand⟩ := pr
            simp only [pure_eq_ok, ok_bind] at hok
            obtain ⟨rgs, hreq, hok⟩ := except_bind_ok _ _ _ hok
            rcases hmiss : findMissingRequiredOptionGroup rgs (Val.dict (kioskOptionGroups slots))
              with _ | g
            · simp only [hmiss, pure_eq_ok, Except.ok.injEq, Prod.mk.injEq] at hok
              refine ⟨?_, ?_, ?_⟩ <;>
                exact hok.2 ▸ dget_mergeState_patch st _ _ _ (by decide)
                  (by simp [dUpdate, List.foldl_cons, List.foldl_nil, dget_dset_self,
                            dget_dset_ne, ne_eq, String.reduceEq])
            · simp only [hmiss, pure_eq_ok, Except.ok.injEq, Prod.mk.injEq] at hok
              rw [← hok.1] at hat
              simp [actionTypeOf, dgetD, dget, safeDict] at hat

theorem drivingControl_success_markers (o : Oracles) (domain intent : String)
    (slots meta st : Dict)
    (hat : actionTypeOf (drivingControl o domain intent slots meta st).1
      = .str "vehicle_action") :
    dget (drivingControl o domain intent slots meta st).2 "last_bot_action"
        = dget st "last_bot_action" ∧
    dget (drivingControl o domain intent slots meta st).2 "pending_option_group"
        = dget st "pending_option_group" := by
  simp only [drivingControl] at hat ⊢
  split_ifs at hat ⊢ <;>
    constructor <;>
      exact dget_mergeState_other st _ _ (by decide) (patch_keys_ne _ _ (by simp))

theorem validateDriving_success_markers (o : Oracles) (domain intent : String)
    (slots meta st : Dict)
    (hat : actionTypeOf (validateDriving o domain intent slots meta st).1
      = .str "vehicle_action") :
    dget (validateDriving o domain intent slots meta st).2 "last_bot_action"
        = dget st "last_bot_action" ∧
    dget (validateDriving o domain intent slots meta st).2 "pending_option_group"
        = dget st "pending_option_group" := by
  simp only [validateDriving] at hat ⊢
  split_ifs at hat ⊢ <;> first
    | exact drivingControl_success_markers _ _ _ _ _ _ hat
    | (constructor <;>
        exact dget_mergeState_other st _ _ (by decide) (patch_keys_ne _ _ (by simp)))

/-- C6 counterexample: a successful driving vehicle-action turn (intent
`control_hardware`, window open) leaves `last_bot_action` unset and leaves a
stale `pending_option_group` marker in place — the success path does not set
`last_system_action` to the intent's own name and does not clear the
pending-clarification markers. -/
theorem C6_counterexample :
    actionTypeOf (validateDriving ⟨none, [], none⟩ "driving" "control_hardware"
      [("target_part", Val.dict [("value", Val.str "window"), ("confidence", Val.rat 1)]),
       ("action", Val.dict [("value", Val.str "open"), ("confidence", Val.rat 1)])]
      [] [("turn_index", Val.int 0), ("pending_option_group", Val.str "temperature")]).1
      = .str "vehicle_action" ∧
    dget (validateDriving ⟨none, [], none⟩ "driving" "control_hardware"
      [("target_part", Val.dict [("value", Val.str "window"), ("confidence", Val.rat 1)]),
       ("action", Val.dict [("value", Val.str "open"), ("confidence", Val.rat 1)])]
      [] [("turn_index", Val.int 0), ("pending_option_group", Val.str "temperature")]).2
      "last_bot_action" = none ∧
    dget (validateDriving ⟨none, [], none⟩ "driving" "control_hardware"
      [("target_part", Val.dict [("value", Val.str "window"), ("confidence", Val.rat 1)]),
       ("action", Val.dict [("value", Val.str "open"), ("confidence", Val.rat 1)])]
      [] [("turn_index", Val.int 0), ("pending_option_group", Val.str "temperature")]).2
      "pending_option_group" = some (.str "temperature") := by
  decide

/-- C6 (amended): only the kiosk add-to-cart success path clears the
pending-clarification markers, and it sets `last_bot_action` to the literal
`"add_to_cart"` (not the intent name `add_item`); the driving vehicle-action
success path leaves `last_bot_action` and the pending marker exactly as they
were in the prior state. -/
theorem C6_success_path_markers :
    (∀ (catalog : Catalog) (domain intent : String) (slots meta st a st' : Dict),
       validateKioskAddItem catalog domain intent slots meta st = .ok (a, st') →
       actionTypeOf a = .str "add_to_cart" →
       dget st' "pending_option_group" = some .null ∧
       dget st' "pending_option_group_choices" = some .null ∧
       dget st' "last_bot_action" = some (.str "add_to_cart")) ∧
    (∀ (o : Oracles) (domain intent : String) (slots meta st : Dict),
       actionTypeOf (validateDriving o domain intent slots meta st).1 = .str "vehicle_action" →
       dget (validateDriving o domain intent slots meta st).2 "last_bot_action"
           = dget st "last_bot_action" ∧
       dget (validateDriving o domain intent slots meta st).2 "pending_option_group"
           = dget st "pending_option_group") :=
  ⟨fun catalog domain intent slots meta st a st' hok hat =>
     kioskAddToCart_markers catalog domain intent slots meta st a st' hok hat,
   fun o domain intent slots meta st hat =>
     validateDriving_success_markers o domain intent slots meta st hat⟩

/-- Witness for C6 at concrete inputs: a kiosk add-to-cart on a catalog item
with no required option groups, and the driving turn of the counterexample. -/
theorem C6_success_path_markers_witness :
    dget (okSnd (validateKioskAddItem
        (fun _ _ _ => .ok (some ⟨"m1", "아메리카노", some 3000, none, none⟩))
        "kiosk" "add_item"
        [("item_name", Val.dict [("value", Val.str "아메리카노"), ("confidence", Val.rat 1)])]
        [("store_id", Val.str "s1"), ("kiosk_type", Val.str "cafe")]
        [("turn_index", Val.int 0)]))
      "last_bot_action" = some (.str "add_to_cart") ∧
    dget (okSnd (validateKioskAddItem
        (fun _ _ _ => .ok (some ⟨"m1", "아메리카노", some 3000, none, none⟩))
        "kiosk" "add_item"
        [("item_name", Val.dict [("value", Val.str "아메리카노"), ("confidence", Val.rat 1)])]
        [("store_id", Val.str "s1"), ("kiosk_type", Val.str "cafe")]
        [("turn_index", Val.int 0)]))
      "pending_option_group" = some Val.null ∧
    dget (validateDriving ⟨none, [], none⟩ "driving" "control_hardware"
      [("target_part", Val.dict [("value", Val.str "window"), ("confidence", Val.rat 1)]),
       ("action", Val.dict [("value", Val.str "open"), ("confidence", Val.rat 1)])]
      [] [("turn_index", Val.int 0)]).2 "last_bot_action"
      = dget [("turn_index", Val.int 0)] "last_bot_action" := by
  have hk := C6_success_path_markers.1
    (fun _ _ _ => .ok (some ⟨"m1", "아메리카노", some 3000, none, none⟩))
    "kiosk" "add_item"
    [("item_name", Val.dict [("value", Val.str "아메리카노"), ("confidence", Val.rat 1)])]
    [("store_id", Val.str "s1"), ("kiosk_type", Val.str "cafe")]
    [("turn_index", Val.int 0)]
    (okFst (validateKioskAddItem
        (fun _ _ _ => .ok (some ⟨"m1", "아메리카노", some 3000, none, none⟩))
        "kiosk" "add_item"
        [("item_name", Val.dict [("value", Val.str "아메리카노"), ("confidence", Val.rat 1)])]
        [("store_id", Val.str "s1"), ("kiosk_type", Val.str "cafe")]
        [("turn_index", Val.int 0)]))
    (okSnd (validateKioskAddItem
        (fun _ _ _ => .ok (some ⟨"m1", "아메리카노", some 3000, none, none⟩))
        "kiosk" "add_item"
        [("item_name", Val.dict [("value", Val.str "아메리카노"), ("confidence", Val.rat 1)])]
        [("store_id", Val.str "s1"), ("kiosk_type", Val.str "cafe")]
        [("turn_index", Val.int 0)]))
    rfl (by decide)
  have hd := C6_success_path_markers.2 ⟨none, [], none⟩ "driving" "control_hardware"
    [("target_part", Val.dict [("value", Val.str "window"), ("confidence", Val.rat 1)]),
     ("action", Val.dict [("value", Val.str "open"), ("confidence", Val.rat 1)])]
    [] [("turn_index", Val.int 0)] (by decide)
  exact ⟨hk.2.2, hk.1, hd.1⟩

theorem bind_ok_of_ok {α β : Type} (e : Except Unit α) (f : α → Except Unit β)
    (he : ∃ x, e = .ok x) (hf : ∀ x, ∃ y, f x = .ok y) : ∃ y, (e >>= f) = .ok y := by
  obtain ⟨x, hx⟩ := he
  obtain ⟨y, hy⟩ := hf x
  refine ⟨y, ?_⟩
  rw [hx, ok_bind]
  exact hy

theorem lookupFirst_total_ok (cat : Val → Val → Val → Option MenuItem) (sid kt : Val)
    (cands : List String) :
    ∃ r, lookupFirst (fun s k n => .ok (cat s k n)) sid kt cands = .ok r := by
  induction cands with
  | nil => exact ⟨_, rfl⟩
  | cons c rest ih =>
      simp only [lookupFirst]
      refine bind_ok_of_ok _ _ ⟨_, rfl⟩ ?_
      intro x
      cases x with
      | some it => exact ⟨_, rfl⟩
      | none => exact ih

theorem getRequired_total_ok (cat : Val → Val → Val → Option MenuItem) (meta slots : Dict) :
    ∃ gs, getRequiredOptionGroupsForAddItem meta slots (fun s k n => .ok (cat s k n))
      = .ok gs := by
  simp only [getRequiredOptionGroupsForAddItem]
  obtain ⟨s1, s2⟩ := extractStoreScope meta
  cases s1 with
  | none => exact ⟨_, rfl⟩
  | some sid =>
      cases s2 with
      | none => exact ⟨_, rfl⟩
      | some kt =>
          dsimp only
          by_cases hn : pyStrip (safeStr (slotValue (dgetD slots "item_name" Val.null))) = ""
          · rw [if_pos hn]
            exact ⟨_, rfl⟩
          · rw [if_neg hn]
            refine bind_ok_of_ok _ _ ⟨_, rfl⟩ ?_
            intro it0
            cases it0 with
            | none => exact ⟨_, rfl⟩
            | some it => exact ⟨_, rfl⟩

theorem validateKioskAddItem_total_ok (cat : Val → Val → Val → Option MenuItem)
    (domain intent : String) (slots meta st : Dict) :
    ∃ r, validateKioskAddItem (fun s k n => .ok (cat s k n)) domain intent slots meta st
      = .ok r := by
  simp only [validateKioskAddItem]
  by_cases h1 : (¬ pyTruthy (dgetD meta "store_id" Val.null) ∨
      ¬ pyTruthy (dgetD meta "kiosk_type" Val.null) ∨
      ¬ pyTruthy (slotValueOf slots "item_name"))
  · rw [if_pos h1]
    exact ⟨_, rfl⟩
  · rw [if_neg h1]
    refine bind_ok_of_ok _ _ ⟨_, rfl⟩ ?_
    intro item0
    cases item0 with
    | some it =>
        refine bind_ok_of_ok _ _ ⟨_, rfl⟩ ?_
        intro found
        cases found with
        | none => exact ⟨_, rfl⟩
        | some triple =>
            obtain ⟨item, usedName, recovered⟩ := triple
            refine bind_ok_of_ok _ _ (getRequired_total_ok cat meta _) ?_
            intro gs
            cases findMissingRequiredOptionGroup gs (Val.dict (kioskOptionGroups slots)) with
            | none => exact ⟨_, rfl⟩
            | some g => exact ⟨_, rfl⟩
    | none =>
        refine bind_ok_of_ok _ _ (lookupFirst_total_ok cat _ _ _) ?_
        intro lr
        cases lr with
        | none => exact ⟨_, rfl⟩
        | some pr =>
            obtain ⟨it2, cand⟩ := pr
            refine bind_ok_of_ok _ _ ⟨_, rfl⟩ ?_
            intro found
            cases found with
            | none => exact ⟨_, rfl⟩
            | some triple =>
                obtain ⟨item, usedName, recovered⟩ := triple
                refine bind_ok_of_ok _ _ (getRequired_total_ok cat meta _) ?_
                intro gs
                cases findMissingRequiredOptionGroup gs (Val.dict (kioskOptionGroups slots)) with
                | none => exact ⟨_, rfl⟩
                | some g => exact ⟨_, rfl⟩

/-- C8 counterexample: on a well-formed kiosk `add_item` input (store, kiosk
type and item name all present), a catalog whose lookup raises makes
`validate_and_build_action` itself raise — the error is not caught, does not
degrade to a fallback answer, and propagates past the validator's boundary. -/
theorem C8_counterexample :
    validateAndBuildAction ⟨none, [], none⟩ (fun _ _ _ => .error ()) "kiosk" "add_item"
      [("item_name", Val.dict [("value", Val.str "아메리카노"), ("confidence", Val.rat 1)])]
      [("store_id", Val.str "s1"), ("kiosk_type", Val.str "cafe")]
      [("turn_index", Val.int 0)] = .error () := rfl

/-- C8 (amended): the validator itself contains no error handling around the
catalog collaborator: when the catalog never raises, every input returns a
well-formed (action, state) pair, but when the catalog raises on a reachable
kiosk `add_item` lookup, the validator propagates the error to its caller
(the transport layer's handler, which converts it to an HTTP 500) instead of
degrading to a fallback answer. -/
theorem C8_catalog_error_propagation :
    (∀ (o : Oracles) (cat : Val → Val → Val → Option MenuItem) (domain intent : String)
       (slots meta st : Dict),
       ∃ r, validateAndBuildAction o (fun s k n => .ok (cat s k n)) domain intent slots meta st
         = .ok r) ∧
    (∀ (o : Oracles) (domain intent : String) (slots meta st : Dict),
       domain = "kiosk" → intent = "add_item" →
       pyTruthy (dgetD meta "store_id" Val.null) →
       pyTruthy (dgetD meta "kiosk_type" Val.null) →
       pyTruthy (slotValueOf slots "item_name") →
       validateAndBuildAction o (fun _ _ _ => .error ()) domain intent slots meta st
         = .error ()) := by
  constructor
  · intro o cat domain intent slots meta st
    unfold validateAndBuildAction
    split_ifs <;> first
      | exact ⟨_, rfl⟩
      | exact validateKioskAddItem_total_ok cat domain intent slots meta st
  · intro o domain intent slots meta st hd hi h1 h2 h3
    subst hd hi
    unfold validateAndBuildAction
    rw [if_neg (by decide), if_pos ⟨rfl, rfl⟩]
    simp only [validateKioskAddItem]
    rw [if_neg (by push_neg; exact ⟨h1, h2, h3⟩)]
    rfl

/-- Witness for C8 at concrete inputs: a total catalog that misses always
gives a well-formed result; an always-raising catalog makes the same kiosk
input raise. -/
theorem C8_catalog_error_propagation_witness :
    (∃ r, validateAndBuildAction ⟨none, [], none⟩
        (fun s k n => .ok ((fun _ _ _ => none) s k n)) "kiosk" "add_item"
        [("item_name", Val.dict [("value", Val.str "아메리카노"), ("confidence", Val.rat 1)])]
        [("store_id", Val.str "s1"), ("kiosk_type", Val.str "cafe")]
        [("turn_index", Val.int 0)] = .ok r) ∧
    validateAndBuildAction ⟨none, [], none⟩ (fun _ _ _ => .error ()) "kiosk" "add_item"
      [("item_name", Val.dict [("value", Val.str "아메리카노"), ("confidence", Val.rat 1)])]
      [("store_id", Val.str "s1"), ("kiosk_type", Val.str "cafe")]
      [("turn_index", Val.int 0)] = .error () :=
  ⟨C8_catalog_error_propagation.1 ⟨none, [], none⟩ (fun _ _ _ => none) "kiosk" "add_item"
     [("item_name", Val.dict [("value", Val.str "아메리카노"), ("confidence", Val.rat 1)])]
     [("store_id", Val.str "s1"), ("kiosk_type", Val.str "cafe")]
     [("turn_index", Val.int 0)],
   C8_catalog_error_propagation.2 ⟨none, [], none⟩ "kiosk" "add_item"
     [("item_name", Val.dict [("value", Val.str "아메리카노"), ("confidence", Val.rat 1)])]
     [("store_id", Val.str "s1"), ("kiosk_type", Val.str "cafe")]
     [("turn_index", Val.int 0)] rfl rfl (by decide) (by decide) (by decide)⟩

end Chatbot
